import Mathlib

set_option maxHeartbeats 1000000

/-
Verification of the simulation core of the `threeavatar` demo
(`src/app/three-scene`): character movement, the basketball's
held/thrown physics, the animation state machine with its play-once
completion listeners, and the sphere-vs-box collision world.

Numbers are modelled as exact rationals.  The transcendental /
irrational primitives the source calls (`Math.sqrt`, `Math.sin`,
`Math.cos`, `Math.pow`, `Math.atan2`, `Math.PI`) are threaded through as
an explicit record of rational-valued functions (`MathLib`); theorems
that depend on a particular value of one of them carry that value as a
hypothesis.
-/

namespace ThreeAvatar

/- Batteries seals the `Rat` arithmetic operations; re-enable default
transparency so that concrete traces evaluate by `decide`. -/
attribute [local semireducible] Rat.add Rat.mul Rat.inv Rat.sub Rat.ofScientific


/-- Exact-rational 3D vector, modelling `THREE.Vector3`. -/
structure Vec3 where
  x : ℚ
  y : ℚ
  z : ℚ
deriving DecidableEq, Repr

namespace Vec3

/-- Componentwise addition (`Vector3.add`). -/
def add (a b : Vec3) : Vec3 := ⟨a.x + b.x, a.y + b.y, a.z + b.z⟩

/-- Componentwise subtraction (`Vector3.sub`). -/
def sub (a b : Vec3) : Vec3 := ⟨a.x - b.x, a.y - b.y, a.z - b.z⟩

/-- Scalar multiple (`Vector3.multiplyScalar`). -/
def smul (c : ℚ) (v : Vec3) : Vec3 := ⟨c * v.x, c * v.y, c * v.z⟩

/-- Squared euclidean length; `Vector3.length` is `Math.sqrt` of this. -/
def lsq (v : Vec3) : ℚ := v.x * v.x + v.y * v.y + v.z * v.z

/-- The zero vector. -/
def zero : Vec3 := ⟨0, 0, 0⟩

end Vec3

instance : Add Vec3 := ⟨Vec3.add⟩
instance : Sub Vec3 := ⟨Vec3.sub⟩
instance : SMul ℚ Vec3 := ⟨Vec3.smul⟩

@[simp] theorem Vec3.add_def (a b : Vec3) : a + b = ⟨a.x + b.x, a.y + b.y, a.z + b.z⟩ := rfl
@[simp] theorem Vec3.sub_def (a b : Vec3) : a - b = ⟨a.x - b.x, a.y - b.y, a.z - b.z⟩ := rfl
@[simp] theorem Vec3.smul_def (c : ℚ) (v : Vec3) : c • v = ⟨c * v.x, c * v.y, c * v.z⟩ := rfl

/-- Axis-aligned box in world space, modelling `THREE.Box3`. -/
structure Box3 where
  bmin : Vec3
  bmax : Vec3
deriving DecidableEq, Repr

namespace Box3

/-- Membership test of `Box3.containsPoint` (inclusive on all faces). -/
def contains (b : Box3) (p : Vec3) : Prop :=
  b.bmin.x ≤ p.x ∧ p.x ≤ b.bmax.x ∧
  b.bmin.y ≤ p.y ∧ p.y ≤ b.bmax.y ∧
  b.bmin.z ≤ p.z ∧ p.z ≤ b.bmax.z

instance (b : Box3) (p : Vec3) : Decidable (b.contains p) := by
  unfold contains; infer_instance

/-- Outward expansion of `Box3.expandByScalar`. -/
def expand (b : Box3) (r : ℚ) : Box3 :=
  ⟨⟨b.bmin.x - r, b.bmin.y - r, b.bmin.z - r⟩, ⟨b.bmax.x + r, b.bmax.y + r, b.bmax.z + r⟩⟩

/-- Centre of the box, as computed by `Box3.getCenter`. -/
def center (b : Box3) : Vec3 :=
  ⟨(b.bmin.x + b.bmax.x) / 2, (b.bmin.y + b.bmax.y) / 2, (b.bmin.z + b.bmax.z) / 2⟩

end Box3

/-- The six faces a sphere-vs-box query can classify. -/
inductive Face where
  | left | right | bottom | top | back | front
deriving DecidableEq, Repr

/-- Simulation constants, taken verbatim from the component's fields. -/
def moveSpeed : ℚ := 2
def sprintSpeed : ℚ := 4
def gravity : ℚ := -9.81
def bounceReduction : ℚ := 0.7
def groundY : ℚ := -1.5
def basketballRadius : ℚ := 0.12
def pickupDistance : ℚ := 1.5
def characterRadius : ℚ := 0.2

/-- Geometric hit test shared by both collision queries: the probe centre
lies inside the box expanded by the probe radius, but not inside the
unexpanded box. -/
def geomHit (b : Box3) (r : ℚ) (c : Vec3) : Prop :=
  (b.expand r).contains c ∧ ¬ b.contains c

instance (b : Box3) (r : ℚ) (c : Vec3) : Decidable (geomHit b r c) := by
  unfold geomHit; infer_instance

/-- Character surface-collision scan (`checkCollision`): the probe centre
is the candidate position raised by 0.5, with radius 0.2, scanned over
the court's collision boxes. -/
def checkCollision (boxes : List (String × Box3)) (newPosition : Vec3) : Bool :=
  match boxes with
  | [] => false
  | nb :: rest =>
    if geomHit nb.2 characterRadius (newPosition + (⟨0, 0.5, 0⟩ : Vec3)) then true
    else checkCollision rest newPosition

/-- Face classification of `checkBasketballCollision`: penetration depths
are measured against the expanded box, the axis of least penetration wins
(X beating Y beating Z on ties), and the sign of `center − boxCenter` on
that axis picks the face. -/
def classifyFace (b : Box3) (c : Vec3) : Face :=
  let e := b.expand basketballRadius
  let pX := min (c.x - e.bmin.x) (e.bmax.x - c.x)
  let pY := min (c.y - e.bmin.y) (e.bmax.y - c.y)
  let pZ := min (c.z - e.bmin.z) (e.bmax.z - c.z)
  if pX ≤ pY ∧ pX ≤ pZ then
    (if c.x < b.center.x then Face.left else Face.right)
  else if pY ≤ pZ then
    (if c.y < b.center.y then Face.bottom else Face.top)
  else
    (if c.z < b.center.z then Face.back else Face.front)

/-- Basketball collision scan (`checkBasketballCollision`): returns the
first box the ball's sphere hits, together with the classified face,
except that boxes named `Object_28` only collide on their `front` and
`back` faces (other faces are skipped and the scan continues). -/
def checkBasketballCollision (boxes : List (String × Box3)) (c : Vec3) :
    Option (String × Face) :=
  match boxes with
  | [] => none
  | nb :: rest =>
    if geomHit nb.2 basketballRadius c then
      let f := classifyFace nb.2 c
      if nb.1 = "Object_28" ∧ f ≠ Face.front ∧ f ≠ Face.back then
        checkBasketballCollision rest c
      else some (nb.1, f)
    else checkBasketballCollision rest c

/-- Transcription of the spec's face-classification sentence, stated as a
predicate on the returned face: the chosen face's axis has minimal
penetration (with X-then-Y-then-Z tie priority: Y must strictly beat X,
Z must strictly beat both), and the side is selected by the sign of
`center − boxCenter` on that axis. -/
def SpecFaceOk (b : Box3) (c : Vec3) (f : Face) : Prop :=
  let e := b.expand basketballRadius
  let pX := min (c.x - e.bmin.x) (e.bmax.x - c.x)
  let pY := min (c.y - e.bmin.y) (e.bmax.y - c.y)
  let pZ := min (c.z - e.bmin.z) (e.bmax.z - c.z)
  ((f = Face.left ∨ f = Face.right) → pX ≤ pY ∧ pX ≤ pZ) ∧
  ((f = Face.bottom ∨ f = Face.top) → pY < pX ∧ pY ≤ pZ) ∧
  ((f = Face.back ∨ f = Face.front) → pZ < pX ∧ pZ < pY) ∧
  (f = Face.left → c.x < b.center.x) ∧
  (f = Face.right → b.center.x ≤ c.x) ∧
  (f = Face.bottom → c.y < b.center.y) ∧
  (f = Face.top → b.center.y ≤ c.y) ∧
  (f = Face.back → c.z < b.center.z) ∧
  (f = Face.front → b.center.z ≤ c.z)

theorem classifyFace_spec (b : Box3) (c : Vec3) : SpecFaceOk b c (classifyFace b c) := by
  unfold SpecFaceOk classifyFace
  dsimp only
  split_ifs with h1 h2 h3 h4 h5
  · exact ⟨fun _ => h1, fun hf => absurd hf (by decide), fun hf => absurd hf (by decide),
      fun _ => h2, fun hf => absurd hf (by decide), fun hf => absurd hf (by decide),
      fun hf => absurd hf (by decide), fun hf => absurd hf (by decide),
      fun hf => absurd hf (by decide)⟩
  · exact ⟨fun _ => h1, fun hf => absurd hf (by decide), fun hf => absurd hf (by decide),
      fun hf => absurd hf (by decide), fun _ => le_of_not_lt h2,
      fun hf => absurd hf (by decide), fun hf => absurd hf (by decide),
      fun hf => absurd hf (by decide), fun hf => absurd hf (by decide)⟩
  · refine ⟨fun hf => absurd hf (by decide), fun _ => ⟨?_, h3⟩, fun hf => absurd hf (by decide),
      fun hf => absurd hf (by decide), fun hf => absurd hf (by decide),
      fun _ => h4, fun hf => absurd hf (by decide),
      fun hf => absurd hf (by decide), fun hf => absurd hf (by decide)⟩
    rcases not_and_or.mp h1 with h | h <;> push_neg at h <;> linarith
  · refine ⟨fun hf => absurd hf (by decide), fun _ => ⟨?_, h3⟩, fun hf => absurd hf (by decide),
      fun hf => absurd hf (by decide), fun hf => absurd hf (by decide),
      fun hf => absurd hf (by decide), fun _ => le_of_not_lt h4,
      fun hf => absurd hf (by decide), fun hf => absurd hf (by decide)⟩
    rcases not_and_or.mp h1 with h | h <;> push_neg at h <;> linarith
  · refine ⟨fun hf => absurd hf (by decide), fun hf => absurd hf (by decide),
      fun _ => ⟨?_, ?_⟩,
      fun hf => absurd hf (by decide), fun hf => absurd hf (by decide),
      fun hf => absurd hf (by decide), fun hf => absurd hf (by decide),
      fun _ => h5, fun hf => absurd hf (by decide)⟩
    · push_neg at h3
      rcases not_and_or.mp h1 with h | h <;> push_neg at h <;> linarith
    · push_neg at h3; linarith
  · refine ⟨fun hf => absurd hf (by decide), fun hf => absurd hf (by decide),
      fun _ => ⟨?_, ?_⟩,
      fun hf => absurd hf (by decide), fun hf => absurd hf (by decide),
      fun hf => absurd hf (by decide), fun hf => absurd hf (by decide),
      fun hf => absurd hf (by decide), fun _ => le_of_not_lt h5⟩
    · push_neg at h3
      rcases not_and_or.mp h1 with h | h <;> push_neg at h <;> linarith
    · push_neg at h3; linarith

/-- Animation states of the machine (values of `animationStates`). -/
inductive AnimState where
  | idle | wlking | walkingbackward | running | holdingball
  | standingtocrouched | throwball
deriving DecidableEq, Repr

/-- States whose clip is configured `LoopOnce` with `clampWhenFinished`. -/
def isPlayOnce (a : AnimState) : Bool :=
  match a with
  | AnimState.standingtocrouched => true
  | AnimState.throwball => true
  | _ => false

/-- The two completion handlers that can be registered on the mixer's
`finished` event. -/
inductive Handler where
  | crouchH | throwH
deriving DecidableEq, Repr

/-- Keys the component reads back from its `keys` map.  (`e` and `r` are
recorded by the source as well but only acted on in the keydown handler,
never read back, so storing them is behaviourally irrelevant; they are
included for fidelity.) -/
structure KeyState where
  zK : Bool
  sK : Bool
  qK : Bool
  dK : Bool
  shiftK : Bool
  eK : Bool
  rK : Bool
  upK : Bool
  downK : Bool
  leftK : Bool
  rightK : Bool
deriving DecidableEq, Repr

/-- Logical keys that can arrive in keyboard events. -/
inductive Key where
  | z | s | q | d | shift | e | r | arrowup | arrowdown | arrowleft | arrowright
deriving DecidableEq, Repr

/-- keydown/keyup bookkeeping on the `keys` map. -/
def setKey (k : Key) (v : Bool) (ks : KeyState) : KeyState :=
  match k with
  | Key.z => { ks with zK := v }
  | Key.s => { ks with sK := v }
  | Key.q => { ks with qK := v }
  | Key.d => { ks with dK := v }
  | Key.shift => { ks with shiftK := v }
  | Key.e => { ks with eK := v }
  | Key.r => { ks with rK := v }
  | Key.arrowup => { ks with upK := v }
  | Key.arrowdown => { ks with downK := v }
  | Key.arrowleft => { ks with leftK := v }
  | Key.arrowright => { ks with rightK := v }

/-- All keys unpressed. -/
def noKeys : KeyState :=
  ⟨false, false, false, false, false, false, false, false, false, false, false⟩

/-- Rational-valued models of the JS math primitives used by the source.
Theorems that depend on particular values carry them as hypotheses. -/
structure MathLib where
  sqrtF : ℚ → ℚ
  sinF : ℚ → ℚ
  cosF : ℚ → ℚ
  powF : ℚ → ℚ → ℚ
  atan2F : ℚ → ℚ → ℚ
  piF : ℚ

/-- Clip durations, delivered by the loaded GLB assets; a parameter of the
model. -/
def Clips := AnimState → ℚ

/-- Whole-component simulation state: the mutable fields of `ThreeScene`
that the simulation core reads or writes.  The fields `fadeInCount`,
`fadeOutCount`, `crouchFires`, `throwFires` and `throwCalls` are ghost
instrumentation: they count calls to `fadeIn`, `fadeOut`, the two
completion handlers and `throwBasketball`, and are written only where
those calls occur in the source. -/
structure Sim where
  avatarLoaded : Bool
  actionsLoaded : Bool
  ballLoaded : Bool
  courtLoaded : Bool
  avatarPos : Vec3
  avatarRotY : ℚ
  ballPos : Vec3
  ballVel : Vec3
  ballVisible : Bool
  boxes : List (String × Box3)
  keys : KeyState
  cameraAngle : ℚ
  cameraHeight : ℚ
  currentState : AnimState
  currentAction : Option AnimState
  actionTime : ℚ
  listeners : List (Handler × ℕ)
  nextBindId : ℕ
  hasBall : Bool
  isCrouched : Bool
  isTransitioning : Bool
  isThrowingBall : Bool
  ballWasThrown : Bool
  fadeInCount : ℕ
  fadeOutCount : ℕ
  crouchFires : ℕ
  throwFires : ℕ
  throwCalls : ℕ
deriving DecidableEq, Repr

/-- The component's state right after construction, before any asset has
loaded (field initialisers of `ThreeScene`). -/
def initSim : Sim where
  avatarLoaded := false
  actionsLoaded := false
  ballLoaded := false
  courtLoaded := false
  avatarPos := Vec3.zero
  avatarRotY := 0
  ballPos := Vec3.zero
  ballVel := Vec3.zero
  ballVisible := true
  boxes := []
  keys := noKeys
  cameraAngle := 0
  cameraHeight := 1.8
  currentState := AnimState.idle
  currentAction := none
  actionTime := 0
  listeners := []
  nextBindId := 0
  hasBall := false
  isCrouched := false
  isTransitioning := false
  isThrowingBall := false
  ballWasThrown := false
  fadeInCount := 0
  fadeOutCount := 0
  crouchFires := 0
  throwFires := 0
  throwCalls := 0

/-- `playAnimation(state)`: fade out the current action when it differs
from the requested one, reset/fade-in/play the requested action, and for
the two play-once transitions set the transition flags and register a
fresh `finished` listener (a new `bind(this)` closure, modelled by a
fresh identity from `nextBindId`). -/
def playAnimation (st : AnimState) (s : Sim) : Sim :=
  if s.actionsLoaded = false then s
  else
    let s1 := if s.currentAction ≠ none ∧ s.currentAction ≠ some st then
                { s with fadeOutCount := s.fadeOutCount + 1 }
              else s
    let s2 := { s1 with currentAction := some st, actionTime := 0,
                        fadeInCount := s1.fadeInCount + 1 }
    if st = AnimState.standingtocrouched then
      { s2 with isTransitioning := true,
                listeners := s2.listeners ++ [(Handler.crouchH, s2.nextBindId)],
                nextBindId := s2.nextBindId + 1 }
    else if st = AnimState.throwball then
      { s2 with isTransitioning := true, isThrowingBall := true,
                listeners := s2.listeners ++ [(Handler.throwH, s2.nextBindId)],
                nextBindId := s2.nextBindId + 1 }
    else s2

/-- Attempted listener removal performed by the completion handlers:
`removeEventListener('finished', this.onXxxFinished.bind(this))` passes a
freshly allocated closure, so the filter compares against a bind identity
that was never registered. -/
def removeListenerFresh (h : Handler) (s : Sim) : Sim :=
  { s with listeners := s.listeners.filter (fun e => decide (e ≠ (h, s.nextBindId))),
           nextBindId := s.nextBindId + 1 }

/-- Duration of the current action's clip (0 when there is none). -/
def curDuration (clips : Clips) (s : Sim) : ℚ :=
  match s.currentAction with
  | some a => clips a
  | none => 0

/-- Normalised progress of the current action, clamped to 1
(`Math.min(animationTime / animationDuration, 1)`). -/
def inHandProgress (clips : Clips) (s : Sim) : ℚ :=
  min (s.actionTime / curDuration clips s) 1

/-- Base hand offset of the held ball. -/
def baseHandOffset : Vec3 := ⟨0, 1, 0.4⟩

/-- Hand offset during the three throw wind-up phases
(progress ≤ 0.3 / ≤ 0.55 / ≤ 0.6). -/
def offsetThrow (m : MathLib) (p : ℚ) : Vec3 :=
  if p ≤ 0.3 then
    let downProgress := p / 0.3
    let downCurve := m.sinF (downProgress * m.piF * 0.5)
    ⟨0, 1 - downCurve * 0.2, 0.4 - downCurve * 0.1⟩
  else if p ≤ 0.55 then
    let upProgress := (p - 0.3) / 0.25
    let upCurve := m.powF upProgress 0.3
    ⟨0, 1 + (-0.2) + upCurve * 0.9, 0.4 + (-0.1) + upCurve * 0.15⟩
  else
    let throwProgress := (p - 0.55) / 0.25
    ⟨0, 1 + 0.7, 0.4 + (0.05 - throwProgress * 0.3)⟩

/-- Rotation of a vector about the Y axis by the avatar's yaw
(`applyAxisAngle(Vector3(0,1,0), rotation.y)`). -/
def rotateY (m : MathLib) (a : ℚ) (v : Vec3) : Vec3 :=
  ⟨v.x * m.cosF a + v.z * m.sinF a, v.y, -(v.x * m.sinF a) + v.z * m.cosF a⟩

/-- Set the ball's position to the avatar's position plus the yaw-rotated
hand offset. -/
def setBallHand (m : MathLib) (off : Vec3) (s : Sim) : Sim :=
  { s with ballPos := s.avatarPos + rotateY m s.avatarRotY off }

/-- `throwBasketball()`: aim along the avatar's yaw, set the throw
impulse (8 horizontally, 6 upward), and mark `ballWasThrown`. -/
def throwBasketball (m : MathLib) (s : Sim) : Sim :=
  if s.ballLoaded = false ∨ s.avatarLoaded = false then s
  else
    { s with ballVisible := true,
             ballVel := ⟨m.sinF s.avatarRotY * 8, 6, m.cosF s.avatarRotY * 8⟩,
             ballWasThrown := true,
             throwCalls := s.throwCalls + 1 }

/-- `updateBasketballInHand()`: guards, the three-phase throw offset, the
release at progress > 0.6, and the kinematic hand placement. -/
def updateBasketballInHand (m : MathLib) (clips : Clips) (s : Sim) : Sim :=
  if ¬ (s.ballLoaded = true ∧ s.avatarLoaded = true ∧ s.hasBall = true) then s
  else if s.ballWasThrown = true then { s with hasBall := false }
  else if s.isThrowingBall = false ∧ m.sqrtF (Vec3.lsq s.ballVel) > 0.1 then s
  else if s.isThrowingBall = true ∧ s.currentAction ≠ none then
    (if inHandProgress clips s ≤ 0.6 then
       setBallHand m (offsetThrow m (inHandProgress clips s)) s
     else
       (if s.hasBall = true then throwBasketball m { s with hasBall := false } else s))
  else setBallHand m baseHandOffset s

/-- `attachBasketballToHand()`. -/
def attachBasketballToHand (m : MathLib) (clips : Clips) (s : Sim) : Sim :=
  if s.ballLoaded = false ∨ s.avatarLoaded = false then s
  else updateBasketballInHand m clips { s with ballVisible := true }

/-- `onCrouchFinished()`: the (ineffective) listener removal, the pickup
state flips, attaching the ball, and switching to `holdingball`. -/
def onCrouchFinished (m : MathLib) (clips : Clips) (s : Sim) : Sim :=
  let s1 := removeListenerFresh Handler.crouchH s
  let s2 := { s1 with crouchFires := s1.crouchFires + 1, isCrouched := true,
                      hasBall := true, isTransitioning := false,
                      ballWasThrown := false }
  let s3 := attachBasketballToHand m clips s2
  let s4 := playAnimation AnimState.holdingball s3
  { s4 with currentState := AnimState.holdingball }

/-- `onThrowFinished()`: the (ineffective) listener removal, the throw
state flips, and switching to `idle`. -/
def onThrowFinished (s : Sim) : Sim :=
  let s1 := removeListenerFresh Handler.throwH s
  let s2 := { s1 with throwFires := s1.throwFires + 1, isCrouched := false,
                      isTransitioning := false, isThrowingBall := false,
                      hasBall := false }
  let s3 := playAnimation AnimState.idle s2
  { s3 with currentState := AnimState.idle }

/-- Run one registered `finished` listener. -/
def runHandler (m : MathLib) (clips : Clips) (h : Handler) (s : Sim) : Sim :=
  match h with
  | Handler.crouchH => onCrouchFinished m clips s
  | Handler.throwH => onThrowFinished s

/-- Dispatch of the mixer's `finished` event: THREE's `EventDispatcher`
iterates over a snapshot of the listener array, in registration order. -/
def dispatchFinished (m : MathLib) (clips : Clips) (s : Sim) : Sim :=
  s.listeners.foldl (fun st e => runHandler m clips e.1 st) s

/-- Whether the current action is a play-once clip. -/
def isPlayOnceOpt (oa : Option AnimState) : Bool :=
  match oa with
  | some a => isPlayOnce a
  | none => false

/-- Wrapped clip time of a repeating clip: THREE's `AnimationAction`
keeps a `LoopRepeat` action's time inside `[0, duration)` by wrapping it
modulo the clip duration. -/
def wrapTime (dur t : ℚ) : ℚ :=
  if 0 < dur then t - dur * ((t / dur).floor : ℚ) else t

/-- `mixer.update(delta)`: advance the current clip's time; when a
play-once clip crosses its duration, clamp to the duration and dispatch
`finished` synchronously.  A play-once clip already at its duration is
paused and neither advances nor re-fires; a repeating clip's time wraps
modulo its duration. -/
def mixerUpdate (m : MathLib) (clips : Clips) (delta : ℚ) (s : Sim) : Sim :=
  if s.avatarLoaded = false then s
  else if isPlayOnceOpt s.currentAction = true then
    (if s.actionTime < curDuration clips s ∧ curDuration clips s ≤ s.actionTime + delta then
       dispatchFinished m clips { s with actionTime := curDuration clips s }
     else if s.actionTime < curDuration clips s then
       { s with actionTime := s.actionTime + delta }
     else s)
  else { s with actionTime := wrapTime (curDuration clips s) (s.actionTime + delta) }

/-- Gravity integration on the velocity (`velocity.y += gravity * delta`). -/
def gravityStep (delta : ℚ) (v : Vec3) : Vec3 :=
  ⟨v.x, v.y + gravity * delta, v.z⟩

/-- Candidate free-flight position for the frame
(`position + velocity * delta`, with the velocity already
gravity-integrated). -/
def freeNewPos (delta : ℚ) (s : Sim) : Vec3 :=
  s.ballPos + delta • gravityStep delta s.ballVel

/-- Per-face velocity response of the bounce branch: force the component
along the hit face's axis outward, scaled by the bounce strength 0.8. -/
def forceFace (f : Face) (v : Vec3) : Vec3 :=
  match f with
  | Face.top => ⟨v.x, -(|v.y|) * 0.8, v.z⟩
  | Face.bottom => ⟨v.x, |v.y| * 0.8, v.z⟩
  | Face.left => ⟨|v.x| * 0.8, v.y, v.z⟩
  | Face.right => ⟨-(|v.x|) * 0.8, v.y, v.z⟩
  | Face.front => ⟨v.x, v.y, -(|v.z|) * 0.8⟩
  | Face.back => ⟨v.x, v.y, |v.z| * 0.8⟩

/-- Full bounce response: the per-face outward reflection followed by
`multiplyScalar(0.9)` on all three components. -/
def applyBounce (f : Face) (v : Vec3) : Vec3 :=
  (0.9 : ℚ) • forceFace f v

/-- Ground-plane handling at the end of the free-flight branch: clamp to
`groundY + radius`, reflect or zero the vertical speed, and apply
horizontal friction 0.8. -/
def groundStep (s : Sim) : Sim :=
  if s.ballPos.y ≤ groundY + basketballRadius then
    { s with ballPos := ⟨s.ballPos.x, groundY + basketballRadius, s.ballPos.z⟩,
             ballVel := ⟨s.ballVel.x * 0.8,
                         (if |s.ballVel.y| > 0.1 then -s.ballVel.y * bounceReduction else 0),
                         s.ballVel.z * 0.8⟩ }
  else s

/-- Safety reset used when the ball leaves the playable volume. -/
def resetBall (s : Sim) : Sim :=
  { s with ballPos := ⟨3, -1.2, 0⟩, ballVel := Vec3.zero, hasBall := false,
           isThrowingBall := false, ballWasThrown := false }

/-- `updateBasketballPhysics(delta)`: hand-following when held, the two
safety resets, gravity, the box-collision bounce (position withheld on a
hit), and the ground plane. -/
def updateBasketballPhysics (m : MathLib) (clips : Clips) (delta : ℚ) (s : Sim) : Sim :=
  if s.ballLoaded = false then s
  else if s.hasBall = true then updateBasketballInHand m clips s
  else if s.ballPos.y < -10 then resetBall s
  else if m.sqrtF (Vec3.lsq s.ballPos) > 50 then resetBall s
  else
    let v1 := gravityStep delta s.ballVel
    let nP := freeNewPos delta s
    let s1 := match checkBasketballCollision s.boxes nP with
      | some pr => { s with ballVel := applyBounce pr.2 v1 }
      | none => { s with ballVel := v1, ballPos := nP }
    groundStep s1

/-- Camera-relative forward basis vector. -/
def cameraForwardV (m : MathLib) (a : ℚ) : Vec3 :=
  ⟨-(m.sinF a), 0, -(m.cosF a)⟩

/-- Camera-relative right basis vector. -/
def cameraRightV (m : MathLib) (a : ℚ) : Vec3 :=
  ⟨m.cosF a, 0, -(m.sinF a)⟩

/-- Movement direction accumulated from the held direction keys
(Z forward, S backward, Q left, D right, camera-relative). -/
def moveDirOf (m : MathLib) (k : KeyState) (a : ℚ) : Vec3 :=
  let fwd := cameraForwardV m a
  let rgt := cameraRightV m a
  let d1 := if k.zK = true then Vec3.zero + fwd else Vec3.zero
  let d2 := if k.sK = true then d1 - fwd else d1
  let d3 := if k.qK = true then d2 - rgt else d2
  if k.dK = true then d3 + rgt else d3

/-- Movement speed: sprint speed with Shift held, base speed otherwise. -/
def movementSpeed (k : KeyState) : ℚ :=
  if k.shiftK = true then sprintSpeed else moveSpeed

/-- Animation state selected by `handleMovement`'s key chain (each later
key's branch overwrites `newState`). -/
def movementState (hasBall sprint : Bool) (k : KeyState) : AnimState :=
  let n0 := if hasBall = true then AnimState.holdingball else AnimState.idle
  let n1 := if k.zK = true then
              (if hasBall = true then AnimState.holdingball
               else if sprint = true then AnimState.running else AnimState.wlking)
            else n0
  let n2 := if k.sK = true then
              (if hasBall = true then AnimState.holdingball else AnimState.walkingbackward)
            else n1
  let n3 := if k.qK = true then
              (if hasBall = true then AnimState.holdingball
               else if sprint = true then AnimState.running else AnimState.wlking)
            else n2
  if k.dK = true then
    (if hasBall = true then AnimState.holdingball
     else if sprint = true then AnimState.running else AnimState.wlking)
  else n3

/-- `updateCameraPosition()`: arrow keys nudge the orbit height/angle;
the eye-position smoothing itself is render-side and stateless. -/
def updateCameraPosition (s : Sim) : Sim :=
  if s.avatarLoaded = false then s
  else
    { s with
      cameraHeight := s.cameraHeight + (if s.keys.upK = true then (0.02 : ℚ) else 0)
                      - (if s.keys.downK = true then (0.02 : ℚ) else 0),
      cameraAngle := s.cameraAngle + (if s.keys.leftK = true then (0.02 : ℚ) else 0)
                     - (if s.keys.rightK = true then (0.02 : ℚ) else 0) }

/-- Normalised movement direction (`moveDir.normalize()`, i.e. division
by the square root of the squared length). -/
def normDir (m : MathLib) (md : Vec3) : Vec3 :=
  (1 / m.sqrtF (Vec3.lsq md)) • md

/-- Candidate position of the movement step
(`position + direction × speed × delta`). -/
def movementNewPos (m : MathLib) (delta : ℚ) (s : Sim) : Vec3 :=
  s.avatarPos + (movementSpeed s.keys * delta) • normDir m (moveDirOf m s.keys s.cameraAngle)

/-- Position/facing part of the movement branch: commit the candidate
position unless the collision scan blocks it; face the movement
direction either way. -/
def applyMoveStep (m : MathLib) (delta : ℚ) (s : Sim) : Sim :=
  let nd := normDir m (moveDirOf m s.keys s.cameraAngle)
  if checkCollision s.boxes (movementNewPos m delta s) = true then
    { s with avatarRotY := m.atan2F nd.x nd.z }
  else
    { s with avatarPos := movementNewPos m delta s, avatarRotY := m.atan2F nd.x nd.z }

/-- Play `ns` and record it as current only when it differs from the
previously active state. -/
def syncAnimTo (ns : AnimState) (s : Sim) : Sim :=
  if ns ≠ s.currentState then
    let sp := playAnimation ns s
    { sp with currentState := ns }
  else s

/-- `handleMovement(delta)`: locked during transitions; otherwise build
the camera-relative direction, normalise, move unless the collision scan
blocks, always face the movement direction, and keep the animation state
in sync. -/
def handleMovement (m : MathLib) (delta : ℚ) (s : Sim) : Sim :=
  if s.avatarLoaded = false ∨ s.isTransitioning = true then s
  else if m.sqrtF (Vec3.lsq (moveDirOf m s.keys s.cameraAngle)) > 0 then
    updateCameraPosition
      (syncAnimTo (movementState s.hasBall s.keys.shiftK s.keys) (applyMoveStep m delta s))
  else
    updateCameraPosition
      (syncAnimTo (if s.hasBall = true then AnimState.holdingball else AnimState.idle) s)

/-- `canPickupBall()`. -/
def canPickupBall (m : MathLib) (s : Sim) : Prop :=
  s.ballLoaded = true ∧ s.avatarLoaded = true ∧ s.hasBall = false ∧
  m.sqrtF (Vec3.lsq (s.avatarPos - s.ballPos)) ≤ pickupDistance

instance (m : MathLib) (s : Sim) : Decidable (canPickupBall m s) := by
  unfold canPickupBall; infer_instance

/-- `onKeyDown`: record the key, then the edge-triggered pickup (E) and
throw (R) abilities with their guards. -/
def onKeyDown (m : MathLib) (k : Key) (s : Sim) : Sim :=
  let s0 := { s with keys := setKey k true s.keys }
  if k = Key.e ∧ s0.hasBall = false ∧ s0.isTransitioning = false ∧ canPickupBall m s0 then
    let s1 := { s0 with ballVel := Vec3.zero }
    let s2 := playAnimation AnimState.standingtocrouched s1
    { s2 with currentState := AnimState.standingtocrouched }
  else if k = Key.r ∧ s0.hasBall = true ∧ s0.isTransitioning = false then
    let s2 := playAnimation AnimState.throwball s0
    { s2 with currentState := AnimState.throwball }
  else s0

/-- One frame of `animate()`: mixer update, character movement, ball
physics, then the camera update. -/
def tickSim (m : MathLib) (clips : Clips) (delta : ℚ) (s : Sim) : Sim :=
  updateCameraPosition
    (updateBasketballPhysics m clips delta
      (handleMovement m delta
        (mixerUpdate m clips delta s)))

/-- External events driving the simulation: keyboard events, animation
frames, and the three one-shot GLB load completions. -/
inductive Ev where
  | keydown (k : Key)
  | keyup (k : Key)
  | tick (delta : ℚ)
  | loadAvatar
  | loadBall
  | loadCourt
deriving DecidableEq, Repr

/-- Completion of the avatar GLB load: position the avatar, create the
actions, and play `idle`. -/
def loadAvatarStep (s : Sim) : Sim :=
  let s1 := { s with avatarLoaded := true, actionsLoaded := true,
                     avatarPos := ⟨0, -1.5, 0⟩, avatarRotY := 0 }
  playAnimation AnimState.idle s1

/-- One event step.  `bp` is the court's collision-box data (derived from
the court asset, a model parameter); each loader callback fires at most
once. -/
def stepEv (m : MathLib) (clips : Clips) (bp : List (String × Box3)) (s : Sim) (ev : Ev) : Sim :=
  match ev with
  | Ev.keydown k => onKeyDown m k s
  | Ev.keyup k => { s with keys := setKey k false s.keys }
  | Ev.tick delta => tickSim m clips delta s
  | Ev.loadAvatar => if s.avatarLoaded = true then s else loadAvatarStep s
  | Ev.loadBall => if s.ballLoaded = true then s
                   else { s with ballLoaded := true, ballPos := ⟨3, -1.2, 0⟩ }
  | Ev.loadCourt => if s.courtLoaded = true then s
                    else { s with courtLoaded := true, boxes := bp }

/-- Run a sequence of events from a state. -/
def run (m : MathLib) (clips : Clips) (bp : List (String × Box3)) (s : Sim)
    (evs : List Ev) : Sim :=
  evs.foldl (stepEv m clips bp) s

/-- Piecewise-rational stand-in for `Math.sqrt`, pinned at the values the
concrete traces below actually consult (0, 1, the pickup distance
squared 0.1744 ≈ 0.42², and 0.25); elsewhere it returns 1, which takes
the same branch as the real square root at every remaining use in those
traces (all are `≤ 50` / `≤ 1.5` style comparisons). -/
def sqrtQ : ℚ → ℚ :=
  fun x => if x = 0 then 0 else if x = 1 then 1
           else if x = 0.1744 then 0.42 else if x = 0.25 then 0.5 else 1

/-- Stand-in for `Math.sin`, pinned at 0 and at the stand-in value 1.5708
returned by `atan2Q` for facing +x. -/
def sinQ : ℚ → ℚ := fun x => if x = 1.5708 then 1 else 0

/-- Stand-in for `Math.cos`, matching `sinQ`. -/
def cosQ : ℚ → ℚ := fun x => if x = 1.5708 then 0 else 1

/-- Stand-in for `Math.atan2`, pinned at the (+x)-facing query. -/
def atan2Q : ℚ → ℚ → ℚ := fun x z => if x = 1 ∧ z = 0 then 1.5708 else 0

/-- Concrete math bundle for the closed traces. -/
def mQ : MathLib := ⟨sqrtQ, sinQ, cosQ, fun _ _ => 1, atan2Q, 3.14159⟩

/-- Concrete clip table: every clip lasts 1 second. -/
def clipsQ : Clips := fun _ => 1

/-- Trace: load everything, walk right up to the ball (D for 1.3 s),
pick it up (E), and let the crouch clip complete. -/
def evsPickup : List Ev :=
  [Ev.loadAvatar, Ev.loadBall, Ev.loadCourt, Ev.keydown Key.d, Ev.tick 1.3,
   Ev.keyup Key.d, Ev.keydown Key.e, Ev.tick 1]

/-- Trace: the pickup trace followed by a throw (R) whose clip is
advanced to progress 0.7 (releasing the ball) and then past its end. -/
def evsThrow : List Ev :=
  evsPickup ++ [Ev.keydown Key.r, Ev.tick 0.7, Ev.tick 0.5]

/-- C1 (code bug evidence): after a pickup followed by a completed
throw, the crouch completion handler has run twice (once per `finished`
dispatch), and the listener list still holds both registrations.
`removeEventListener('finished', this.onCrouchFinished.bind(this))` is
handed a freshly allocated closure, so the one-shot callback is neither
cleared after firing nor prevented from firing again on a later
transition's completion. -/
theorem c1_completion_listener_not_cleared :
    (run mQ clipsQ [] initSim evsThrow).crouchFires = 2 ∧
    (run mQ clipsQ [] initSim evsPickup).listeners = [(Handler.crouchH, 0)] ∧
    (run mQ clipsQ [] initSim evsThrow).listeners =
      [(Handler.crouchH, 0), (Handler.throwH, 2)] := by
  refine ⟨?_, ?_, ?_⟩ <;> decide

/-- C2 (code bug evidence): in a single completed throw sequence,
`throwBasketball` — the throw-impulse application — runs twice: once at
the physics tick that observes progress 0.7 > 0.6 with the ball held,
and a second time at clip completion, when the stale crouch-completion
listener sets `hasBall` back to `true` and re-enters the release branch
at progress 1. -/
theorem c2_throw_impulse_applied_twice :
    (run mQ clipsQ [] initSim evsThrow).throwCalls = 2 := by
  decide

/-- C3 counterexample: immediately after the throw keypress and again on
each of the next two animation frames — three consecutive reachable
simulation states — `hasBall` and `isThrowingBall` are both true, so the
overlap of the two flags spans the whole throw wind-up, not a single
release frame. -/
theorem c3_flags_overlap_multiframe :
    (let s1 := run mQ clipsQ [] initSim (evsPickup ++ [Ev.keydown Key.r]);
     s1.hasBall = true ∧ s1.isThrowingBall = true) ∧
    (let s2 := run mQ clipsQ [] initSim (evsPickup ++ [Ev.keydown Key.r, Ev.tick 0.1]);
     s2.hasBall = true ∧ s2.isThrowingBall = true) ∧
    (let s3 := run mQ clipsQ [] initSim
        (evsPickup ++ [Ev.keydown Key.r, Ev.tick 0.1, Ev.tick 0.1]);
     s3.hasBall = true ∧ s3.isThrowingBall = true) := by
  refine ⟨⟨?_, ?_⟩, ⟨?_, ?_⟩, ⟨?_, ?_⟩⟩ <;> decide

/-- Check that a listener list ends with a throw handler. -/
def endsWithThrow : List (Handler × ℕ) → Bool
  | [] => false
  | [e] => decide (e.1 = Handler.throwH)
  | _ :: rest => endsWithThrow rest

theorem endsWithThrow_append_throw (l : List (Handler × ℕ)) (i : ℕ) :
    endsWithThrow (l ++ [(Handler.throwH, i)]) = true := by
  induction l with
  | nil => rfl
  | cons e t ih =>
    cases t with
    | nil => simp [endsWithThrow]
    | cons e2 t2 => simpa [endsWithThrow] using ih

theorem endsWithThrow_split (l : List (Handler × ℕ)) (h : endsWithThrow l = true) :
    ∃ l' i, l = l' ++ [(Handler.throwH, i)] := by
  induction l with
  | nil => simp [endsWithThrow] at h
  | cons e t ih =>
    cases t with
    | nil =>
      simp only [endsWithThrow, decide_eq_true_eq] at h
      exact ⟨[], e.2, by cases e; simp_all⟩
    | cons e2 t2 =>
      obtain ⟨l', i, hl⟩ := ih (by simpa [endsWithThrow] using h)
      exact ⟨e :: l', i, by simp [hl]⟩

/-- Invariant: a held ball has not (yet) been thrown. -/
def JInv (s : Sim) : Prop := s.hasBall = true → s.ballWasThrown = false

/-- Invariant: the actions table exists only once the avatar is loaded
(both are created by the same loader callback). -/
def ALInv (s : Sim) : Prop := s.actionsLoaded = true → s.avatarLoaded = true

/-- Invariant: while a throw is in flight the machine is mid-transition
on the throw clip, and the most recently registered `finished` listener
is the throw's own completion handler. -/
def ThrowOK (s : Sim) : Prop :=
  s.isThrowingBall = true →
    s.isTransitioning = true ∧ s.currentAction = some AnimState.throwball ∧
    s.currentState = AnimState.throwball ∧ endsWithThrow s.listeners = true ∧
    s.actionsLoaded = true

/-- The inductive invariant of the simulation loop. -/
def Inv (s : Sim) : Prop := JInv s ∧ ALInv s ∧ ThrowOK s

theorem playAnimation_nontrans_proj (st : AnimState) (s : Sim)
    (h1 : st ≠ AnimState.standingtocrouched) (h2 : st ≠ AnimState.throwball) :
    (playAnimation st s).hasBall = s.hasBall ∧
    (playAnimation st s).ballWasThrown = s.ballWasThrown ∧
    (playAnimation st s).isThrowingBall = s.isThrowingBall ∧
    (playAnimation st s).isTransitioning = s.isTransitioning ∧
    (playAnimation st s).listeners = s.listeners ∧
    (playAnimation st s).avatarLoaded = s.avatarLoaded ∧
    (playAnimation st s).actionsLoaded = s.actionsLoaded ∧
    (playAnimation st s).ballLoaded = s.ballLoaded := by
  unfold playAnimation
  split_ifs <;> simp_all

theorem playAnimation_loads (st : AnimState) (s : Sim) :
    (playAnimation st s).avatarLoaded = s.avatarLoaded ∧
    (playAnimation st s).actionsLoaded = s.actionsLoaded ∧
    (playAnimation st s).ballLoaded = s.ballLoaded := by
  unfold playAnimation
  split_ifs <;> simp_all

theorem playAnimation_flags (st : AnimState) (s : Sim) :
    (playAnimation st s).hasBall = s.hasBall ∧
    (playAnimation st s).ballWasThrown = s.ballWasThrown := by
  unfold playAnimation
  split_ifs <;> simp_all

theorem updateBasketballInHand_proj (m : MathLib) (clips : Clips) (s : Sim) :
    (updateBasketballInHand m clips s).isThrowingBall = s.isThrowingBall ∧
    (updateBasketballInHand m clips s).isTransitioning = s.isTransitioning ∧
    (updateBasketballInHand m clips s).currentAction = s.currentAction ∧
    (updateBasketballInHand m clips s).currentState = s.currentState ∧
    (updateBasketballInHand m clips s).listeners = s.listeners ∧
    (updateBasketballInHand m clips s).avatarLoaded = s.avatarLoaded ∧
    (updateBasketballInHand m clips s).actionsLoaded = s.actionsLoaded ∧
    (updateBasketballInHand m clips s).ballLoaded = s.ballLoaded := by
  unfold updateBasketballInHand throwBasketball setBallHand
  split_ifs <;> simp_all

theorem updateBasketballInHand_J (m : MathLib) (clips : Clips) (s : Sim)
    (h : JInv s) : JInv (updateBasketballInHand m clips s) := by
  unfold updateBasketballInHand throwBasketball setBallHand JInv at *
  split_ifs <;> simp_all

theorem attachBasketballToHand_proj (m : MathLib) (clips : Clips) (s : Sim) :
    (attachBasketballToHand m clips s).isThrowingBall = s.isThrowingBall ∧
    (attachBasketballToHand m clips s).isTransitioning = s.isTransitioning ∧
    (attachBasketballToHand m clips s).currentAction = s.currentAction ∧
    (attachBasketballToHand m clips s).currentState = s.currentState ∧
    (attachBasketballToHand m clips s).listeners = s.listeners ∧
    (attachBasketballToHand m clips s).avatarLoaded = s.avatarLoaded ∧
    (attachBasketballToHand m clips s).actionsLoaded = s.actionsLoaded ∧
    (attachBasketballToHand m clips s).ballLoaded = s.ballLoaded := by
  unfold attachBasketballToHand
  split_ifs with h
  · simp
  · have h2 := updateBasketballInHand_proj m clips { s with ballVisible := true }
    simp_all

theorem attachBasketballToHand_J (m : MathLib) (clips : Clips) (s : Sim)
    (h : JInv s) : JInv (attachBasketballToHand m clips s) := by
  unfold attachBasketballToHand
  split_ifs with hl
  · exact h
  · exact updateBasketballInHand_J m clips _ (by unfold JInv at *; simpa using h)

theorem onCrouchFinished_noThrow (m : MathLib) (clips : Clips) (s : Sim)
    (h : s.isThrowingBall = false) :
    (onCrouchFinished m clips s).isThrowingBall = false ∧
    JInv (onCrouchFinished m clips s) ∧
    (onCrouchFinished m clips s).avatarLoaded = s.avatarLoaded ∧
    (onCrouchFinished m clips s).actionsLoaded = s.actionsLoaded ∧
    (onCrouchFinished m clips s).ballLoaded = s.ballLoaded := by
  unfold onCrouchFinished removeListenerFresh
  have hp := playAnimation_nontrans_proj AnimState.holdingball
    (attachBasketballToHand m clips
      { s with listeners := s.listeners.filter (fun e => decide (e ≠ (Handler.crouchH, s.nextBindId))),
               nextBindId := s.nextBindId + 1, crouchFires := s.crouchFires + 1,
               isCrouched := true, hasBall := true, isTransitioning := false,
               ballWasThrown := false })
    (by decide) (by decide)
  have ha := attachBasketballToHand_proj m clips
    { s with listeners := s.listeners.filter (fun e => decide (e ≠ (Handler.crouchH, s.nextBindId))),
             nextBindId := s.nextBindId + 1, crouchFires := s.crouchFires + 1,
             isCrouched := true, hasBall := true, isTransitioning := false,
             ballWasThrown := false }
  have hj := attachBasketballToHand_J m clips
    { s with listeners := s.listeners.filter (fun e => decide (e ≠ (Handler.crouchH, s.nextBindId))),
             nextBindId := s.nextBindId + 1, crouchFires := s.crouchFires + 1,
             isCrouched := true, hasBall := true, isTransitioning := false,
             ballWasThrown := false }
    (by unfold JInv; simp)
  have hf := playAnimation_flags AnimState.holdingball
    (attachBasketballToHand m clips
      { s with listeners := s.listeners.filter (fun e => decide (e ≠ (Handler.crouchH, s.nextBindId))),
               nextBindId := s.nextBindId + 1, crouchFires := s.crouchFires + 1,
               isCrouched := true, hasBall := true, isTransitioning := false,
               ballWasThrown := false })
  unfold JInv at *
  simp_all

theorem onThrowFinished_out (s : Sim) :
    (onThrowFinished s).hasBall = false ∧
    (onThrowFinished s).isThrowingBall = false ∧
    (onThrowFinished s).avatarLoaded = s.avatarLoaded ∧
    (onThrowFinished s).actionsLoaded = s.actionsLoaded ∧
    (onThrowFinished s).ballLoaded = s.ballLoaded := by
  unfold onThrowFinished removeListenerFresh
  have hp := playAnimation_nontrans_proj AnimState.idle
    { s with listeners := s.listeners.filter (fun e => decide (e ≠ (Handler.throwH, s.nextBindId))),
             nextBindId := s.nextBindId + 1, throwFires := s.throwFires + 1,
             isCrouched := false, isTransitioning := false, isThrowingBall := false,
             hasBall := false }
    (by decide) (by decide)
  simp_all

theorem runHandler_loads (m : MathLib) (clips : Clips) (h : Handler) (s : Sim) :
    (runHandler m clips h s).avatarLoaded = s.avatarLoaded ∧
    (runHandler m clips h s).actionsLoaded = s.actionsLoaded ∧
    (runHandler m clips h s).ballLoaded = s.ballLoaded := by
  cases h with
  | crouchH =>
    unfold runHandler onCrouchFinished removeListenerFresh
    have ha := attachBasketballToHand_proj m clips
      { s with listeners := s.listeners.filter (fun e => decide (e ≠ (Handler.crouchH, s.nextBindId))),
               nextBindId := s.nextBindId + 1, crouchFires := s.crouchFires + 1,
               isCrouched := true, hasBall := true, isTransitioning := false,
               ballWasThrown := false }
    have hp := playAnimation_loads AnimState.holdingball
      (attachBasketballToHand m clips
        { s with listeners := s.listeners.filter (fun e => decide (e ≠ (Handler.crouchH, s.nextBindId))),
                 nextBindId := s.nextBindId + 1, crouchFires := s.crouchFires + 1,
                 isCrouched := true, hasBall := true, isTransitioning := false,
                 ballWasThrown := false })
    simp_all
  | throwH =>
    have := onThrowFinished_out s
    unfold runHandler
    simp_all

theorem runHandler_noThrow (m : MathLib) (clips : Clips) (h : Handler) (s : Sim)
    (hT : s.isThrowingBall = false) :
    (runHandler m clips h s).isThrowingBall = false ∧ JInv (runHandler m clips h s) := by
  cases h with
  | crouchH =>
    have := onCrouchFinished_noThrow m clips s hT
    unfold runHandler
    exact ⟨this.1, this.2.1⟩
  | throwH =>
    have := onThrowFinished_out s
    unfold runHandler JInv at *
    simp_all

theorem dispatch_fold_noThrow (m : MathLib) (clips : Clips) (l : List (Handler × ℕ)) (s : Sim)
    (hT : s.isThrowingBall = false) (hJ : JInv s) :
    (l.foldl (fun st e => runHandler m clips e.1 st) s).isThrowingBall = false ∧
    JInv (l.foldl (fun st e => runHandler m clips e.1 st) s) := by
  induction l generalizing s with
  | nil => exact ⟨hT, hJ⟩
  | cons e t ih =>
    have h1 := runHandler_noThrow m clips e.1 s hT
    exact ih (runHandler m clips e.1 s) h1.1 h1.2

theorem dispatch_fold_loads (m : MathLib) (clips : Clips) (l : List (Handler × ℕ)) (s : Sim) :
    (l.foldl (fun st e => runHandler m clips e.1 st) s).avatarLoaded = s.avatarLoaded ∧
    (l.foldl (fun st e => runHandler m clips e.1 st) s).actionsLoaded = s.actionsLoaded ∧
    (l.foldl (fun st e => runHandler m clips e.1 st) s).ballLoaded = s.ballLoaded := by
  induction l generalizing s with
  | nil => exact ⟨rfl, rfl, rfl⟩
  | cons e t ih =>
    have h1 := runHandler_loads m clips e.1 s
    have h2 := ih (runHandler m clips e.1 s)
    exact ⟨h2.1.trans h1.1, h2.2.1.trans h1.2.1, h2.2.2.trans h1.2.2⟩

theorem dispatchFinished_inv (m : MathLib) (clips : Clips) (s : Sim) (h : Inv s) :
    Inv (dispatchFinished m clips s) := by
  obtain ⟨hJ, hAL, hTO⟩ := h
  unfold dispatchFinished
  rcases hbT : s.isThrowingBall with _ | _
  · have hf := dispatch_fold_noThrow m clips s.listeners s hbT hJ
    have hl := dispatch_fold_loads m clips s.listeners s
    refine ⟨hf.2, ?_, ?_⟩
    · unfold ALInv at *
      rw [hl.2.1, hl.1]
      exact hAL
    · unfold ThrowOK
      rw [hf.1]
      intro hc
      exact absurd hc (by decide)
  · obtain ⟨hTr, hCA, hCS, hEW, hACT⟩ := hTO hbT
    obtain ⟨l', i, hlst⟩ := endsWithThrow_split s.listeners hEW
    rw [hlst, List.foldl_append]
    have hout := onThrowFinished_out (l'.foldl (fun st e => runHandler m clips e.1 st) s)
    have hl := dispatch_fold_loads m clips l' s
    refine ⟨?_, ?_, ?_⟩
    · unfold JInv
      simp only [List.foldl_cons, List.foldl_nil]
      intro hc
      rw [show (runHandler m clips Handler.throwH
            (l'.foldl (fun st e => runHandler m clips e.1 st) s)) = onThrowFinished
            (l'.foldl (fun st e => runHandler m clips e.1 st) s) from rfl] at hc
      rw [hout.1] at hc
      exact absurd hc (by decide)
    · unfold ALInv
      simp only [List.foldl_cons, List.foldl_nil]
      rw [show (runHandler m clips Handler.throwH
            (l'.foldl (fun st e => runHandler m clips e.1 st) s)) = onThrowFinished
            (l'.foldl (fun st e => runHandler m clips e.1 st) s) from rfl]
      rw [hout.2.2.2.1, hout.2.2.1, hl.2.1, hl.1]
      exact hAL
    · unfold ThrowOK
      simp only [List.foldl_cons, List.foldl_nil]
      rw [show (runHandler m clips Handler.throwH
            (l'.foldl (fun st e => runHandler m clips e.1 st) s)) = onThrowFinished
            (l'.foldl (fun st e => runHandler m clips e.1 st) s) from rfl]
      rw [hout.2.1]
      intro hc
      exact absurd hc (by decide)

theorem inv_actionTime (s : Sim) (t : ℚ) (h : Inv s) : Inv { s with actionTime := t } := by
  unfold Inv JInv ALInv ThrowOK at *
  simpa using h

theorem mixerUpdate_inv (m : MathLib) (clips : Clips) (delta : ℚ) (s : Sim) (h : Inv s) :
    Inv (mixerUpdate m clips delta s) := by
  unfold mixerUpdate
  split_ifs with h1 h2 h3 h4
  · exact h
  · exact dispatchFinished_inv m clips _ (inv_actionTime s _ h)
  · exact inv_actionTime s _ h
  · exact h
  · exact inv_actionTime s _ h

theorem movementState_ne_crouch (hb sp : Bool) (k : KeyState) :
    movementState hb sp k ≠ AnimState.standingtocrouched := by
  unfold movementState
  dsimp only
  split_ifs <;> decide

theorem movementState_ne_throw (hb sp : Bool) (k : KeyState) :
    movementState hb sp k ≠ AnimState.throwball := by
  unfold movementState
  dsimp only
  split_ifs <;> decide

theorem updateCameraPosition_proj (s : Sim) :
    (updateCameraPosition s).hasBall = s.hasBall ∧
    (updateCameraPosition s).ballWasThrown = s.ballWasThrown ∧
    (updateCameraPosition s).isThrowingBall = s.isThrowingBall ∧
    (updateCameraPosition s).isTransitioning = s.isTransitioning ∧
    (updateCameraPosition s).listeners = s.listeners ∧
    (updateCameraPosition s).avatarLoaded = s.avatarLoaded ∧
    (updateCameraPosition s).actionsLoaded = s.actionsLoaded ∧
    (updateCameraPosition s).ballLoaded = s.ballLoaded := by
  unfold updateCameraPosition
  split_ifs <;> simp

theorem applyMoveStep_proj (m : MathLib) (delta : ℚ) (s : Sim) :
    (applyMoveStep m delta s).hasBall = s.hasBall ∧
    (applyMoveStep m delta s).ballWasThrown = s.ballWasThrown ∧
    (applyMoveStep m delta s).isThrowingBall = s.isThrowingBall ∧
    (applyMoveStep m delta s).isTransitioning = s.isTransitioning ∧
    (applyMoveStep m delta s).listeners = s.listeners ∧
    (applyMoveStep m delta s).avatarLoaded = s.avatarLoaded ∧
    (applyMoveStep m delta s).actionsLoaded = s.actionsLoaded ∧
    (applyMoveStep m delta s).ballLoaded = s.ballLoaded := by
  unfold applyMoveStep
  split_ifs <;> simp

theorem syncAnimTo_proj (ns : AnimState) (s : Sim)
    (h1 : ns ≠ AnimState.standingtocrouched) (h2 : ns ≠ AnimState.throwball) :
    (syncAnimTo ns s).hasBall = s.hasBall ∧
    (syncAnimTo ns s).ballWasThrown = s.ballWasThrown ∧
    (syncAnimTo ns s).isThrowingBall = s.isThrowingBall ∧
    (syncAnimTo ns s).isTransitioning = s.isTransitioning ∧
    (syncAnimTo ns s).listeners = s.listeners ∧
    (syncAnimTo ns s).avatarLoaded = s.avatarLoaded ∧
    (syncAnimTo ns s).actionsLoaded = s.actionsLoaded ∧
    (syncAnimTo ns s).ballLoaded = s.ballLoaded := by
  unfold syncAnimTo
  have hp := playAnimation_nontrans_proj ns s h1 h2
  split_ifs <;> simp_all

theorem handleMovement_proj (m : MathLib) (delta : ℚ) (s : Sim) :
    (handleMovement m delta s).hasBall = s.hasBall ∧
    (handleMovement m delta s).ballWasThrown = s.ballWasThrown ∧
    (handleMovement m delta s).isThrowingBall = s.isThrowingBall ∧
    (handleMovement m delta s).isTransitioning = s.isTransitioning ∧
    (handleMovement m delta s).avatarLoaded = s.avatarLoaded ∧
    (handleMovement m delta s).actionsLoaded = s.actionsLoaded ∧
    (handleMovement m delta s).ballLoaded = s.ballLoaded := by
  unfold handleMovement
  split_ifs with hg hm hhb
  · simp
  · have ha := applyMoveStep_proj m delta s
    have hs := syncAnimTo_proj (movementState s.hasBall s.keys.shiftK s.keys)
      (applyMoveStep m delta s)
      (movementState_ne_crouch s.hasBall s.keys.shiftK s.keys)
      (movementState_ne_throw s.hasBall s.keys.shiftK s.keys)
    have hc := updateCameraPosition_proj
      (syncAnimTo (movementState s.hasBall s.keys.shiftK s.keys) (applyMoveStep m delta s))
    simp_all
  · have hs := syncAnimTo_proj AnimState.holdingball s (by decide) (by decide)
    have hc := updateCameraPosition_proj (syncAnimTo AnimState.holdingball s)
    simp_all
  · have hs := syncAnimTo_proj AnimState.idle s (by decide) (by decide)
    have hc := updateCameraPosition_proj (syncAnimTo AnimState.idle s)
    simp_all

theorem inv_ballFields (s : Sim) (p v : Vec3) (h : Inv s) :
    Inv { s with ballPos := p, ballVel := v } := by
  unfold Inv JInv ALInv ThrowOK at *
  simpa using h

theorem groundStep_inv (s : Sim) (h : Inv s) : Inv (groundStep s) := by
  unfold groundStep
  split_ifs <;> exact h

theorem resetBall_inv (s : Sim) (h : Inv s) : Inv (resetBall s) := by
  unfold Inv JInv ALInv ThrowOK resetBall at *
  simp only
  refine ⟨?_, ?_, ?_⟩
  · intro hc; simp at hc
  · simpa using h.2.1
  · intro hc; simp at hc

theorem updateBasketballInHand_inv (m : MathLib) (clips : Clips) (s : Sim) (h : Inv s) :
    Inv (updateBasketballInHand m clips s) := by
  obtain ⟨hJ, hAL, hTO⟩ := h
  have hp := updateBasketballInHand_proj m clips s
  refine ⟨updateBasketballInHand_J m clips s hJ, ?_, ?_⟩
  · unfold ALInv at *
    rw [hp.2.2.2.2.2.2.1, hp.2.2.2.2.2.1]
    exact hAL
  · unfold ThrowOK at *
    rw [hp.1, hp.2.1, hp.2.2.1, hp.2.2.2.1, hp.2.2.2.2.1, hp.2.2.2.2.2.2.1]
    exact hTO

theorem updateBasketballPhysics_inv (m : MathLib) (clips : Clips) (delta : ℚ) (s : Sim)
    (h : Inv s) : Inv (updateBasketballPhysics m clips delta s) := by
  unfold updateBasketballPhysics
  split_ifs with h1 h2 h3 h4
  · exact h
  · exact updateBasketballInHand_inv m clips s h
  · exact resetBall_inv s h
  · exact resetBall_inv s h
  · rcases hq : checkBasketballCollision s.boxes (freeNewPos delta s) with _ | pr <;>
      simp only [hq] <;> apply groundStep_inv
    · exact inv_ballFields s _ _ h
    · unfold Inv JInv ALInv ThrowOK at *
      simpa using h

theorem playAnimation_crouch_proj (s : Sim) :
    (playAnimation AnimState.standingtocrouched s).hasBall = s.hasBall ∧
    (playAnimation AnimState.standingtocrouched s).ballWasThrown = s.ballWasThrown ∧
    (playAnimation AnimState.standingtocrouched s).isThrowingBall = s.isThrowingBall ∧
    (playAnimation AnimState.standingtocrouched s).avatarLoaded = s.avatarLoaded ∧
    (playAnimation AnimState.standingtocrouched s).actionsLoaded = s.actionsLoaded ∧
    (playAnimation AnimState.standingtocrouched s).ballLoaded = s.ballLoaded := by
  unfold playAnimation
  split_ifs <;> simp_all

theorem handleMovement_inv (m : MathLib) (delta : ℚ) (s : Sim) (h : Inv s) :
    Inv (handleMovement m delta s) := by
  by_cases hg : s.avatarLoaded = false ∨ s.isTransitioning = true
  · unfold handleMovement
    rw [if_pos hg]
    exact h
  · have hT : s.isThrowingBall = false := by
      by_contra hc
      rw [Bool.not_eq_false] at hc
      exact hg (Or.inr (h.2.2 hc).1)
    have hp := handleMovement_proj m delta s
    refine ⟨?_, ?_, ?_⟩
    · unfold JInv
      rw [hp.1, hp.2.1]
      exact h.1
    · unfold ALInv
      rw [hp.2.2.2.2.2.1, hp.2.2.2.2.1]
      exact h.2.1
    · unfold ThrowOK
      rw [hp.2.2.1, hT]
      intro hc
      exact absurd hc (by decide)

theorem updateCameraPosition_inv (s : Sim) (h : Inv s) : Inv (updateCameraPosition s) := by
  unfold updateCameraPosition
  split_ifs <;> exact h

theorem tickSim_inv (m : MathLib) (clips : Clips) (delta : ℚ) (s : Sim) (h : Inv s) :
    Inv (tickSim m clips delta s) := by
  unfold tickSim
  exact updateCameraPosition_inv _
    (updateBasketballPhysics_inv m clips delta _
      (handleMovement_inv m delta _ (mixerUpdate_inv m clips delta s h)))

theorem playAnimation_notLoaded (st : AnimState) (s : Sim)
    (hl : s.actionsLoaded = false) : playAnimation st s = s := by
  unfold playAnimation
  rw [if_pos hl]

theorem playAnimation_throw_char (s : Sim) (hl : s.actionsLoaded = true) :
    (playAnimation AnimState.throwball s).isThrowingBall = true ∧
    (playAnimation AnimState.throwball s).isTransitioning = true ∧
    (playAnimation AnimState.throwball s).currentAction = some AnimState.throwball ∧
    (∃ i, (playAnimation AnimState.throwball s).listeners =
       s.listeners ++ [(Handler.throwH, i)]) ∧
    (playAnimation AnimState.throwball s).hasBall = s.hasBall ∧
    (playAnimation AnimState.throwball s).ballWasThrown = s.ballWasThrown ∧
    (playAnimation AnimState.throwball s).actionsLoaded = s.actionsLoaded ∧
    (playAnimation AnimState.throwball s).avatarLoaded = s.avatarLoaded := by
  unfold playAnimation
  split_ifs <;> simp_all

theorem onKeyDown_inv (m : MathLib) (k : Key) (s : Sim) (h : Inv s) :
    Inv (onKeyDown m k s) := by
  unfold onKeyDown
  dsimp only
  split_ifs with he hr
  · -- pickup accepted: not transitioning, so not mid-throw
    have hT : s.isThrowingBall = false := by
      by_contra hc
      rw [Bool.not_eq_false] at hc
      have := (h.2.2 hc).1
      simp [this] at he
    have hp := playAnimation_crouch_proj
      { s with keys := setKey k true s.keys, ballVel := Vec3.zero }
    refine ⟨?_, ?_, ?_⟩
    · unfold JInv
      rw [hp.1]
      simp only
      intro hc
      rw [hp.2.1]
      simp only
      exact h.1 hc
    · unfold ALInv
      rw [hp.2.2.2.2.1]
      simp only
      intro hc
      rw [hp.2.2.2.1]
      simp only
      exact h.2.1 hc
    · unfold ThrowOK
      rw [hp.2.2.1]
      simp only [hT]
      intro hc
      exact absurd hc (by decide)
  · -- throw accepted
    have hT : s.isThrowingBall = false := by
      by_contra hc
      rw [Bool.not_eq_false] at hc
      have := (h.2.2 hc).1
      simp [this] at hr
    obtain ⟨hk, hHB, hTr⟩ := hr
    by_cases hl : ({ s with keys := setKey k true s.keys } : Sim).actionsLoaded = true
    · have hch := playAnimation_throw_char { s with keys := setKey k true s.keys } hl
      obtain ⟨hc1, hc2, hc3, ⟨i, hc4⟩, hc5, hc6, hc7, hc8⟩ := hch
      refine ⟨?_, ?_, ?_⟩
      · unfold JInv
        simp only
        rw [hc5, hc6]
        simp only
        exact h.1
      · unfold ALInv
        simp only
        rw [hc7, hc8]
        simp only
        intro _
        exact h.2.1 (by simpa using hl)
      · unfold ThrowOK
        intro _
        refine ⟨hc2, hc3, rfl, ?_, hc7.trans (by simpa using hl)⟩
        simp only [hc4]
        exact endsWithThrow_append_throw _ i
    · rw [playAnimation_notLoaded _ _ (by simpa using hl)]
      refine ⟨?_, ?_, ?_⟩
      · unfold JInv
        simp only
        exact h.1
      · unfold ALInv
        simp only
        exact h.2.1
      · unfold ThrowOK
        simp only
        rw [hT]
        intro hc
        exact absurd hc (by decide)
  · exact h

theorem playAnimation_idle_proj (s : Sim) :
    (playAnimation AnimState.idle s).hasBall = s.hasBall ∧
    (playAnimation AnimState.idle s).ballWasThrown = s.ballWasThrown ∧
    (playAnimation AnimState.idle s).isThrowingBall = s.isThrowingBall := by
  unfold playAnimation
  split_ifs <;> simp_all

theorem loadAvatarStep_inv (s : Sim) (hna : s.avatarLoaded = false) (h : Inv s) :
    Inv (loadAvatarStep s) := by
  have hT : s.isThrowingBall = false := by
    by_contra hc
    rw [Bool.not_eq_false] at hc
    have hact := (h.2.2 hc).2.2.2.2
    rw [h.2.1 hact] at hna
    exact absurd hna (by decide)
  unfold loadAvatarStep
  have hp := playAnimation_idle_proj
    { s with avatarLoaded := true, actionsLoaded := true,
             avatarPos := (⟨0, -1.5, 0⟩ : Vec3), avatarRotY := 0 }
  have hl := playAnimation_loads AnimState.idle
    { s with avatarLoaded := true, actionsLoaded := true,
             avatarPos := (⟨0, -1.5, 0⟩ : Vec3), avatarRotY := 0 }
  refine ⟨?_, ?_, ?_⟩
  · unfold JInv
    rw [hp.1, hp.2.1]
    simp only
    exact h.1
  · unfold ALInv
    rw [hl.2.1, hl.1]
    simp
  · unfold ThrowOK
    rw [hp.2.2]
    simp only [hT]
    intro hc
    exact absurd hc (by decide)

theorem stepEv_inv (m : MathLib) (clips : Clips) (bp : List (String × Box3)) (s : Sim)
    (ev : Ev) (h : Inv s) : Inv (stepEv m clips bp s ev) := by
  cases ev with
  | keydown k => exact onKeyDown_inv m k s h
  | keyup k => exact h
  | tick delta => exact tickSim_inv m clips delta s h
  | loadAvatar =>
    simp only [stepEv]
    split_ifs with hl
    · exact h
    · exact loadAvatarStep_inv s (by simpa using hl) h
  | loadBall =>
    simp only [stepEv]
    split_ifs <;> exact h
  | loadCourt =>
    simp only [stepEv]
    split_ifs <;> exact h

theorem run_inv (m : MathLib) (clips : Clips) (bp : List (String × Box3)) (s : Sim)
    (evs : List Ev) (h : Inv s) : Inv (run m clips bp s evs) := by
  induction evs generalizing s with
  | nil => exact h
  | cons e t ih => exact ih (stepEv m clips bp s e) (stepEv_inv m clips bp s e h)

theorem initSim_inv : Inv initSim := by
  refine ⟨?_, ?_, ?_⟩ <;> intro hc <;> exact absurd hc (by decide)

/-- C3 amended: in every reachable state of the simulation, whenever
`hasBall` and `isThrowingBall` are both true the machine is inside the
throw transition — `isTransitioning` is set and the throw clip is both
the recorded state and the current action.  (The overlap lasts for the
whole wind-up of the throw, from the R keypress to the release tick, not
for a single frame.) -/
theorem c3_amended_overlap_only_during_throw (m : MathLib) (clips : Clips)
    (bp : List (String × Box3)) (evs : List Ev)
    (_hb : (run m clips bp initSim evs).hasBall = true)
    (ht : (run m clips bp initSim evs).isThrowingBall = true) :
    (run m clips bp initSim evs).isTransitioning = true ∧
    (run m clips bp initSim evs).currentState = AnimState.throwball ∧
    (run m clips bp initSim evs).currentAction = some AnimState.throwball := by
  have hI := run_inv m clips bp initSim evs initSim_inv
  obtain ⟨hTr, hCA, hCS, _, _⟩ := hI.2.2 ht
  exact ⟨hTr, hCS, hCA⟩

/-- Witness for the amended C3 theorem at a concrete wind-up state. -/
theorem c3_amended_overlap_witness :
    (run mQ clipsQ [] initSim (evsPickup ++ [Ev.keydown Key.r])).isTransitioning = true ∧
    (run mQ clipsQ [] initSim (evsPickup ++ [Ev.keydown Key.r])).currentState =
      AnimState.throwball ∧
    (run mQ clipsQ [] initSim (evsPickup ++ [Ev.keydown Key.r])).currentAction =
      some AnimState.throwball :=
  c3_amended_overlap_only_during_throw mQ clipsQ [] (evsPickup ++ [Ev.keydown Key.r])
    (by decide) (by decide)

/-- C4: every hit reported by the basketball query classifies its face
exactly as the spec describes: the winning axis minimises the
penetration depths measured against the radius-expanded box (ties broken
X, then Y, then Z), and the side of `center − boxCenter` on that axis
selects the face. -/
theorem c4_hit_face_classification (boxes : List (String × Box3)) (c : Vec3)
    (n : String) (f : Face)
    (h : checkBasketballCollision boxes c = some (n, f)) :
    ∃ b : Box3, (n, b) ∈ boxes ∧ geomHit b basketballRadius c ∧
      f = classifyFace b c ∧ SpecFaceOk b c f := by
  induction boxes with
  | nil => simp [checkBasketballCollision] at h
  | cons nb rest ih =>
    rw [checkBasketballCollision] at h
    by_cases hg : geomHit nb.2 basketballRadius c
    · rw [if_pos hg] at h
      by_cases hskip : nb.1 = "Object_28" ∧ classifyFace nb.2 c ≠ Face.front ∧
          classifyFace nb.2 c ≠ Face.back
      · rw [if_pos hskip] at h
        obtain ⟨b, hmem, hhit, hcl, hspec⟩ := ih h
        exact ⟨b, List.mem_cons_of_mem nb hmem, hhit, hcl, hspec⟩
      · rw [if_neg hskip] at h
        injection h with h'
        have h1 : nb.1 = n := congrArg Prod.fst h'
        have h2 : classifyFace nb.2 c = f := congrArg Prod.snd h'
        refine ⟨nb.2, ?_, hg, h2.symm, h2 ▸ classifyFace_spec nb.2 c⟩
        rw [← h1]
        exact List.mem_cons_self nb rest
    · rw [if_neg hg] at h
      obtain ⟨b, hmem, hhit, hcl, hspec⟩ := ih h
      exact ⟨b, List.mem_cons_of_mem nb hmem, hhit, hcl, hspec⟩

/-- Witness for C4: a unit box hit from the left reports a `left` face
satisfying the spec's classification predicate. -/
theorem c4_hit_face_classification_witness :
    ∃ b : Box3,
      ("wall", b) ∈ [("wall", (⟨⟨0, 0, 0⟩, ⟨1, 1, 1⟩⟩ : Box3))] ∧
      geomHit b basketballRadius (⟨-0.05, 0.5, 0.5⟩ : Vec3) ∧
      Face.left = classifyFace b (⟨-0.05, 0.5, 0.5⟩ : Vec3) ∧
      SpecFaceOk b (⟨-0.05, 0.5, 0.5⟩ : Vec3) Face.left :=
  c4_hit_face_classification [("wall", ⟨⟨0, 0, 0⟩, ⟨1, 1, 1⟩⟩)] ⟨-0.05, 0.5, 0.5⟩
    "wall" Face.left (by decide)

theorem checkBasketballCollision_none (boxes : List (String × Box3)) (c : Vec3)
    (hall : ∀ p ∈ boxes, geomHit p.2 basketballRadius c →
      p.1 = "Object_28" ∧ classifyFace p.2 c ≠ Face.front ∧
      classifyFace p.2 c ≠ Face.back) :
    checkBasketballCollision boxes c = none := by
  induction boxes with
  | nil => rfl
  | cons nb rest ih =>
    rw [checkBasketballCollision]
    dsimp only
    by_cases hg : geomHit nb.2 basketballRadius c
    · rw [if_pos hg, if_pos (hall nb (List.mem_cons_self nb rest) hg)]
      exact ih (fun p hp hh => hall p (List.mem_cons_of_mem nb hp) hh)
    · rw [if_neg hg]
      exact ih (fun p hp hh => hall p (List.mem_cons_of_mem nb hp) hh)

/-- C6: when every box the sphere geometrically reaches is an
`Object_28` box whose classified face is neither `front` nor `back`, the
query reports no collision, and the free-flight tick passes straight
through: the candidate position is committed and the velocity is exactly
the gravity-integrated velocity, with no bounce response. -/
theorem c6_restricted_faces_pass_through (m : MathLib) (clips : Clips) (delta : ℚ)
    (s : Sim)
    (hBL : s.ballLoaded = true) (hHB : s.hasBall = false)
    (hy : (-10 : ℚ) ≤ s.ballPos.y)
    (hd : ¬ m.sqrtF (Vec3.lsq s.ballPos) > 50)
    (hall : ∀ p ∈ s.boxes, geomHit p.2 basketballRadius (freeNewPos delta s) →
      p.1 = "Object_28" ∧ classifyFace p.2 (freeNewPos delta s) ≠ Face.front ∧
      classifyFace p.2 (freeNewPos delta s) ≠ Face.back)
    (hgr : groundY + basketballRadius < (freeNewPos delta s).y) :
    checkBasketballCollision s.boxes (freeNewPos delta s) = none ∧
    (updateBasketballPhysics m clips delta s).ballPos = freeNewPos delta s ∧
    (updateBasketballPhysics m clips delta s).ballVel = gravityStep delta s.ballVel := by
  have hq := checkBasketballCollision_none s.boxes (freeNewPos delta s) hall
  refine ⟨hq, ?_⟩
  unfold updateBasketballPhysics
  rw [if_neg (by simp [hBL]), if_neg (by simp [hHB]),
    if_neg (not_lt.mpr (by linarith)), if_neg hd]
  dsimp only
  rw [hq]
  dsimp only
  unfold groundStep
  dsimp only
  rw [if_neg (not_le.mpr hgr)]
  exact ⟨rfl, rfl⟩

/-- Free-flight state used by the C6 witness: the ball left of an
`Object_28` box, moving right toward its (disallowed) left face. -/
def s6 : Sim :=
  { initSim with ballLoaded := true, ballPos := ⟨-0.1, 0.6, 0.5⟩,
                 ballVel := ⟨0.5, 0, 0⟩,
                 boxes := [("Object_28", ⟨⟨0, 0, 0⟩, ⟨1, 1, 1⟩⟩)] }

/-- Witness for C6: the sphere reaches the box's left face, the query
reports nothing, and the tick commits the candidate position with only
gravity applied to the velocity. -/
theorem c6_restricted_faces_witness :
    checkBasketballCollision s6.boxes (freeNewPos 0.1 s6) = none ∧
    (updateBasketballPhysics mQ clipsQ 0.1 s6).ballPos = freeNewPos 0.1 s6 ∧
    (updateBasketballPhysics mQ clipsQ 0.1 s6).ballVel = gravityStep 0.1 s6.ballVel :=
  c6_restricted_faces_pass_through mQ clipsQ 0.1 s6 (by decide) (by decide)
    (by decide) (by decide) (by decide) (by decide)

/-- Transcription of the spec's bounce-response sentence: the velocity
component along the hit face's axis is forced outward (away from the
box) with magnitude `|v| × 0.8`, and every component is additionally
scaled by the damping factor 0.9. -/
def BounceSpecOk (f : Face) (v w : Vec3) : Prop :=
  match f with
  | Face.top => w.y ≤ 0 ∧ w.y = -(|v.y| * 0.8) * 0.9 ∧ w.x = v.x * 0.9 ∧ w.z = v.z * 0.9
  | Face.bottom => 0 ≤ w.y ∧ w.y = |v.y| * 0.8 * 0.9 ∧ w.x = v.x * 0.9 ∧ w.z = v.z * 0.9
  | Face.left => 0 ≤ w.x ∧ w.x = |v.x| * 0.8 * 0.9 ∧ w.y = v.y * 0.9 ∧ w.z = v.z * 0.9
  | Face.right => w.x ≤ 0 ∧ w.x = -(|v.x| * 0.8) * 0.9 ∧ w.y = v.y * 0.9 ∧ w.z = v.z * 0.9
  | Face.front => w.z ≤ 0 ∧ w.z = -(|v.z| * 0.8) * 0.9 ∧ w.x = v.x * 0.9 ∧ w.y = v.y * 0.9
  | Face.back => 0 ≤ w.z ∧ w.z = |v.z| * 0.8 * 0.9 ∧ w.x = v.x * 0.9 ∧ w.y = v.y * 0.9

theorem applyBounce_spec (f : Face) (v : Vec3) : BounceSpecOk f v (applyBounce f v) := by
  cases f <;>
    unfold BounceSpecOk applyBounce forceFace <;>
    simp only [Vec3.smul_def] <;>
    refine ⟨?_, by ring, by ring, by ring⟩ <;>
    nlinarith [abs_nonneg v.x, abs_nonneg v.y, abs_nonneg v.z]

/-- C8: on a free-flight tick whose query reports a face hit, the new
velocity is exactly the bounce response — outward reflection along the
hit axis scaled by 0.8, then 0.9 damping on all three components — and
in particular a `top` hit leaves the vertical velocity ≤ 0. -/
theorem c8_bounce_response (m : MathLib) (clips : Clips) (delta : ℚ) (s : Sim)
    (n : String) (f : Face)
    (hBL : s.ballLoaded = true) (hHB : s.hasBall = false)
    (hy : groundY + basketballRadius < s.ballPos.y)
    (hd : ¬ m.sqrtF (Vec3.lsq s.ballPos) > 50)
    (hq : checkBasketballCollision s.boxes (freeNewPos delta s) = some (n, f)) :
    (updateBasketballPhysics m clips delta s).ballVel =
      applyBounce f (gravityStep delta s.ballVel) ∧
    BounceSpecOk f (gravityStep delta s.ballVel)
      (applyBounce f (gravityStep delta s.ballVel)) ∧
    (f = Face.top → (updateBasketballPhysics m clips delta s).ballVel.y ≤ 0) := by
  have hvel : (updateBasketballPhysics m clips delta s).ballVel =
      applyBounce f (gravityStep delta s.ballVel) := by
    unfold updateBasketballPhysics
    rw [if_neg (by simp [hBL]), if_neg (by simp [hHB]),
      if_neg (not_lt.mpr (by unfold groundY basketballRadius at hy; linarith)), if_neg hd]
    dsimp only
    rw [hq]
    dsimp only
    unfold groundStep
    dsimp only
    rw [if_neg (not_le.mpr hy)]
  refine ⟨hvel, applyBounce_spec f _, ?_⟩
  intro hf
  subst hf
  rw [hvel]
  exact (applyBounce_spec Face.top (gravityStep delta s.ballVel)).1

/-- Free-flight state used by the C8 and C9 witnesses: the ball above a
unit box, falling onto its top face. -/
def s8 : Sim :=
  { initSim with ballLoaded := true, ballPos := ⟨0.5, 1.2, 0.5⟩,
                 ballVel := ⟨0, -1, 0⟩,
                 boxes := [("wall", ⟨⟨0, 0, 0⟩, ⟨1, 1, 1⟩⟩)] }

/-- Witness for C8 at a concrete `top` hit: the response is the bounce
formula and the resulting vertical velocity is ≤ 0. -/
theorem c8_bounce_response_witness :
    (updateBasketballPhysics mQ clipsQ 0.1 s8).ballVel =
      applyBounce Face.top (gravityStep 0.1 s8.ballVel) ∧
    BounceSpecOk Face.top (gravityStep 0.1 s8.ballVel)
      (applyBounce Face.top (gravityStep 0.1 s8.ballVel)) ∧
    (Face.top = Face.top → (updateBasketballPhysics mQ clipsQ 0.1 s8).ballVel.y ≤ 0) :=
  c8_bounce_response mQ clipsQ 0.1 s8 "wall" Face.top (by decide) (by decide)
    (by decide) (by decide) (by decide)

/-- C9: on a free-flight tick whose query reports a box hit, the ball's
position is left completely unchanged on all three axes — the whole
candidate step is discarded — and only ball velocity is altered; the
ownership flags and the character are untouched.  The hypothesis
`groundY + radius ≤ position.y` holds at entry of every tick of the
running simulation (the ground clamp restores it before a tick ends). -/
theorem c9_blocked_step_keeps_position (m : MathLib) (clips : Clips) (delta : ℚ)
    (s : Sim) (n : String) (f : Face)
    (hBL : s.ballLoaded = true) (hHB : s.hasBall = false)
    (hy : groundY + basketballRadius ≤ s.ballPos.y)
    (hd : ¬ m.sqrtF (Vec3.lsq s.ballPos) > 50)
    (hq : checkBasketballCollision s.boxes (freeNewPos delta s) = some (n, f)) :
    (updateBasketballPhysics m clips delta s).ballPos = s.ballPos ∧
    (updateBasketballPhysics m clips delta s).hasBall = s.hasBall ∧
    (updateBasketballPhysics m clips delta s).isThrowingBall = s.isThrowingBall ∧
    (updateBasketballPhysics m clips delta s).ballWasThrown = s.ballWasThrown ∧
    (updateBasketballPhysics m clips delta s).avatarPos = s.avatarPos := by
  unfold updateBasketballPhysics
  rw [if_neg (by simp [hBL]), if_neg (by simp [hHB]),
    if_neg (not_lt.mpr (by unfold groundY basketballRadius at hy; linarith)), if_neg hd]
  dsimp only
  rw [hq]
  dsimp only
  unfold groundStep
  dsimp only
  by_cases hgl : s.ballPos.y ≤ groundY + basketballRadius
  · rw [if_pos hgl]
    have hyy : s.ballPos.y = groundY + basketballRadius := le_antisymm hgl hy
    refine ⟨?_, rfl, rfl, rfl, rfl⟩
    show (⟨s.ballPos.x, groundY + basketballRadius, s.ballPos.z⟩ : Vec3) = s.ballPos
    rw [← hyy]
  · rw [if_neg hgl]
    exact ⟨rfl, rfl, rfl, rfl, rfl⟩

/-- Witness for C9 at the concrete `top`-hit state: the position is the
pre-tick position on all three axes. -/
theorem c9_blocked_step_keeps_position_witness :
    (updateBasketballPhysics mQ clipsQ 0.1 s8).ballPos = s8.ballPos ∧
    (updateBasketballPhysics mQ clipsQ 0.1 s8).hasBall = s8.hasBall ∧
    (updateBasketballPhysics mQ clipsQ 0.1 s8).isThrowingBall = s8.isThrowingBall ∧
    (updateBasketballPhysics mQ clipsQ 0.1 s8).ballWasThrown = s8.ballWasThrown ∧
    (updateBasketballPhysics mQ clipsQ 0.1 s8).avatarPos = s8.avatarPos :=
  c9_blocked_step_keeps_position mQ clipsQ 0.1 s8 "wall" Face.top (by decide)
    (by decide) (by decide) (by decide) (by decide)

/-- Hand offset the held-ball tick uses: the three-phase throw offset
while a throw clip is active, the base offset otherwise. -/
def handOffsetOf (m : MathLib) (clips : Clips) (s : Sim) : Vec3 :=
  if s.isThrowingBall = true ∧ s.currentAction ≠ none then
    offsetThrow m (inHandProgress clips s)
  else baseHandOffset

/-- C10: a physics tick entered holding the ball, with no release (the
throw progress, if a throw is active, is ≤ 0.6) and the hand-following
guards passing, only places the ball kinematically at the avatar's
position plus the yaw-rotated hand offset: velocity, ownership flags,
the throw-impulse counter and the avatar are all untouched, and no
gravity, box/ground collision response or safety reset runs. -/
theorem c10_held_tick_kinematic_only (m : MathLib) (clips : Clips) (delta : ℚ) (s : Sim)
    (hBL : s.ballLoaded = true) (hAL : s.avatarLoaded = true) (hHB : s.hasBall = true)
    (hBW : s.ballWasThrown = false)
    (hvel : ¬ (s.isThrowingBall = false ∧ m.sqrtF (Vec3.lsq s.ballVel) > 0.1))
    (hrel : s.isThrowingBall = true → s.currentAction ≠ none →
      inHandProgress clips s ≤ 0.6) :
    (updateBasketballPhysics m clips delta s).ballVel = s.ballVel ∧
    (updateBasketballPhysics m clips delta s).ballPos =
      s.avatarPos + rotateY m s.avatarRotY (handOffsetOf m clips s) ∧
    (updateBasketballPhysics m clips delta s).hasBall = true ∧
    (updateBasketballPhysics m clips delta s).ballWasThrown = false ∧
    (updateBasketballPhysics m clips delta s).isThrowingBall = s.isThrowingBall ∧
    (updateBasketballPhysics m clips delta s).throwCalls = s.throwCalls ∧
    (updateBasketballPhysics m clips delta s).avatarPos = s.avatarPos := by
  unfold updateBasketballPhysics
  rw [if_neg (by simp [hBL]), if_pos hHB]
  unfold updateBasketballInHand
  rw [if_neg (by simp [hBL, hAL, hHB]), if_neg (by simp [hBW]), if_neg hvel]
  unfold handOffsetOf
  by_cases hta : s.isThrowingBall = true ∧ s.currentAction ≠ none
  · rw [if_pos hta, if_pos (hrel hta.1 hta.2), if_pos hta]
    unfold setBallHand
    exact ⟨rfl, rfl, hHB, hBW, rfl, rfl, rfl⟩
  · rw [if_neg hta, if_neg hta]
    unfold setBallHand
    exact ⟨rfl, rfl, hHB, hBW, rfl, rfl, rfl⟩

/-- Witness for C10: the state after the pickup trace (holding the ball,
idle hand), advanced by one 0.25 s physics tick. -/
theorem c10_held_tick_kinematic_witness :
    (updateBasketballPhysics mQ clipsQ 0.25 (run mQ clipsQ [] initSim evsPickup)).ballVel =
      (run mQ clipsQ [] initSim evsPickup).ballVel ∧
    (updateBasketballPhysics mQ clipsQ 0.25 (run mQ clipsQ [] initSim evsPickup)).ballPos =
      (run mQ clipsQ [] initSim evsPickup).avatarPos +
        rotateY mQ (run mQ clipsQ [] initSim evsPickup).avatarRotY
          (handOffsetOf mQ clipsQ (run mQ clipsQ [] initSim evsPickup)) ∧
    (updateBasketballPhysics mQ clipsQ 0.25 (run mQ clipsQ [] initSim evsPickup)).hasBall = true ∧
    (updateBasketballPhysics mQ clipsQ 0.25 (run mQ clipsQ [] initSim evsPickup)).ballWasThrown = false ∧
    (updateBasketballPhysics mQ clipsQ 0.25 (run mQ clipsQ [] initSim evsPickup)).isThrowingBall =
      (run mQ clipsQ [] initSim evsPickup).isThrowingBall ∧
    (updateBasketballPhysics mQ clipsQ 0.25 (run mQ clipsQ [] initSim evsPickup)).throwCalls =
      (run mQ clipsQ [] initSim evsPickup).throwCalls ∧
    (updateBasketballPhysics mQ clipsQ 0.25 (run mQ clipsQ [] initSim evsPickup)).avatarPos =
      (run mQ clipsQ [] initSim evsPickup).avatarPos :=
  c10_held_tick_kinematic_only mQ clipsQ 0.25 (run mQ clipsQ [] initSim evsPickup)
    (by decide) (by decide) (by decide) (by decide) (by decide) (by decide)

theorem playAnimation_avatarPos (st : AnimState) (s : Sim) :
    (playAnimation st s).avatarPos = s.avatarPos := by
  unfold playAnimation
  split_ifs <;> simp

theorem syncAnimTo_avatarPos (ns : AnimState) (s : Sim) :
    (syncAnimTo ns s).avatarPos = s.avatarPos := by
  unfold syncAnimTo
  split_ifs
  · simp [playAnimation_avatarPos]
  · rfl

theorem updateCameraPosition_avatarPos (s : Sim) :
    (updateCameraPosition s).avatarPos = s.avatarPos := by
  unfold updateCameraPosition
  split_ifs <;> rfl

theorem moveDirOf_noKeys (m : MathLib) (k : KeyState) (a : ℚ)
    (h : k.zK = false ∧ k.sK = false ∧ k.qK = false ∧ k.dK = false) :
    moveDirOf m k a = Vec3.zero := by
  unfold moveDirOf
  rw [h.1, h.2.1, h.2.2.1, h.2.2.2]
  simp

theorem smul_zero_vec (c : ℚ) : c • Vec3.zero = Vec3.zero := by
  simp [Vec3.zero]

theorem add_zero_vec (v : Vec3) : v + Vec3.zero = v := by
  cases v
  simp [Vec3.zero]

/-- C5: on a tick with the character loaded and not transitioning, when
some direction key is held (the accumulated camera-relative direction
`md` has nonzero length `L`, with `L` the square root of its squared
length) and the collision scan reports no hit at the candidate position,
the position change is exactly the normalised direction scaled by
speed × delta, where the speed is the sprint speed with Shift held and
the base speed otherwise; and when no direction key is held (only the
sprint modifier, say), the position is unchanged. -/
theorem c5_movement_step (m : MathLib) (delta : ℚ) (s : Sim) (L : ℚ)
    (hav : s.avatarLoaded = true) (htr : s.isTransitioning = false) :
    ((m.sqrtF (Vec3.lsq (moveDirOf m s.keys s.cameraAngle)) = L) → 0 < L →
      L * L = Vec3.lsq (moveDirOf m s.keys s.cameraAngle) →
      checkCollision s.boxes
        (s.avatarPos + (movementSpeed s.keys * delta) •
          ((1 / L) • moveDirOf m s.keys s.cameraAngle)) = false →
      (handleMovement m delta s).avatarPos =
        s.avatarPos + (movementSpeed s.keys * delta) •
          ((1 / L) • moveDirOf m s.keys s.cameraAngle)) ∧
    ((s.keys.zK = false ∧ s.keys.sK = false ∧ s.keys.qK = false ∧ s.keys.dK = false) →
      (handleMovement m delta s).avatarPos = s.avatarPos) := by
  constructor
  · intro hL hLpos hLsq hcol
    have hnp : movementNewPos m delta s =
        s.avatarPos + (movementSpeed s.keys * delta) •
          ((1 / L) • moveDirOf m s.keys s.cameraAngle) := by
      unfold movementNewPos normDir
      rw [hL]
    unfold handleMovement
    rw [if_neg (by simp [hav, htr]), if_pos (by rw [hL]; exact hLpos)]
    rw [updateCameraPosition_avatarPos, syncAnimTo_avatarPos]
    unfold applyMoveStep
    rw [if_neg (by rw [hnp, hcol]; exact Bool.false_ne_true)]
    simp only [hnp]
  · intro hk
    have hmd := moveDirOf_noKeys m s.keys s.cameraAngle hk
    have hnp : movementNewPos m delta s = s.avatarPos := by
      unfold movementNewPos normDir
      rw [hmd, smul_zero_vec, smul_zero_vec, add_zero_vec]
    unfold handleMovement
    rw [if_neg (by simp [hav, htr])]
    by_cases hpos : m.sqrtF (Vec3.lsq (moveDirOf m s.keys s.cameraAngle)) > 0
    · rw [if_pos hpos]
      rw [updateCameraPosition_avatarPos, syncAnimTo_avatarPos]
      unfold applyMoveStep
      by_cases hc : checkCollision s.boxes (movementNewPos m delta s) = true
      · rw [if_pos hc]
      · rw [if_neg hc]
        simp only [hnp]
    · rw [if_neg hpos]
      rw [updateCameraPosition_avatarPos, syncAnimTo_avatarPos]

/-- Movement-witness state: loaded avatar holding only the D key. -/
def s5 : Sim :=
  { initSim with avatarLoaded := true, actionsLoaded := true,
                 keys := { noKeys with dK := true } }

/-- Movement-witness state: loaded avatar holding only Shift. -/
def s5b : Sim :=
  { initSim with avatarLoaded := true, actionsLoaded := true,
                 keys := { noKeys with shiftK := true } }

/-- Witness for C5: with only D held the avatar moves by the normalised
direction times speed × delta; with only Shift held it does not move. -/
theorem c5_movement_witness :
    (handleMovement mQ 1 s5).avatarPos =
      s5.avatarPos + (movementSpeed s5.keys * 1) •
        ((1 / (1 : ℚ)) • moveDirOf mQ s5.keys s5.cameraAngle) ∧
    (handleMovement mQ 1 s5b).avatarPos = s5b.avatarPos :=
  ⟨(c5_movement_step mQ 1 s5 1 (by decide) (by decide)).1 (by decide) (by decide)
      (by decide) (by decide),
   (c5_movement_step mQ 1 s5b 1 (by decide) (by decide)).2 (by decide)⟩

/-- Trace reaching a state whose current action is the play-once crouch
clip (mid-transition). -/
def evsToCrouch : List Ev :=
  [Ev.loadAvatar, Ev.loadBall, Ev.loadCourt, Ev.keydown Key.d, Ev.tick 1.3,
   Ev.keyup Key.d, Ev.keydown Key.e]

/-- C7 counterexample: calling `playAnimation` with the state that is
already playing is not a no-op.  On an `idle` state whose clip (duration
1) has advanced to time 0.4, the call resets the clip to time 0 and
applies another fade-in; on the play-once crouch state it additionally
registers another completion listener (machine state changes). -/
theorem c7_play_same_state_not_noop :
    (run mQ clipsQ [] initSim [Ev.loadAvatar, Ev.tick 0.4]).currentAction =
      some AnimState.idle ∧
    (playAnimation AnimState.idle
        (run mQ clipsQ [] initSim [Ev.loadAvatar, Ev.tick 0.4])).actionTime ≠
      (run mQ clipsQ [] initSim [Ev.loadAvatar, Ev.tick 0.4]).actionTime ∧
    (playAnimation AnimState.idle
        (run mQ clipsQ [] initSim [Ev.loadAvatar, Ev.tick 0.4])).fadeInCount ≠
      (run mQ clipsQ [] initSim [Ev.loadAvatar, Ev.tick 0.4]).fadeInCount ∧
    (run mQ clipsQ [] initSim evsToCrouch).currentAction =
      some AnimState.standingtocrouched ∧
    (playAnimation AnimState.standingtocrouched
        (run mQ clipsQ [] initSim evsToCrouch)).listeners ≠
      (run mQ clipsQ [] initSim evsToCrouch).listeners := by
  refine ⟨?_, ?_, ?_, ?_, ?_⟩ <;> decide

/-- C7 amended: calling `play(state)` when `state` is already the
current action skips only the fade-out of the current clip; it still
resets the clip to time 0 and re-applies the fade-in (restarting the
clip), and when `state` is a play-once transition it re-marks the
machine transitioning and registers an additional completion listener.
Callers avoid this by only calling `play` on a state change. -/
theorem c7_amended_play_same_state (st : AnimState) (s : Sim)
    (hl : s.actionsLoaded = true) (hc : s.currentAction = some st) :
    (playAnimation st s).fadeOutCount = s.fadeOutCount ∧
    (playAnimation st s).currentAction = some st ∧
    (playAnimation st s).actionTime = 0 ∧
    (playAnimation st s).fadeInCount = s.fadeInCount + 1 ∧
    (st = AnimState.standingtocrouched →
      (playAnimation st s).isTransitioning = true ∧
      (playAnimation st s).listeners = s.listeners ++ [(Handler.crouchH, s.nextBindId)]) ∧
    (st = AnimState.throwball →
      (playAnimation st s).isTransitioning = true ∧
      (playAnimation st s).isThrowingBall = true ∧
      (playAnimation st s).listeners = s.listeners ++ [(Handler.throwH, s.nextBindId)]) ∧
    (st ≠ AnimState.standingtocrouched → st ≠ AnimState.throwball →
      (playAnimation st s).isTransitioning = s.isTransitioning ∧
      (playAnimation st s).isThrowingBall = s.isThrowingBall ∧
      (playAnimation st s).listeners = s.listeners) := by
  unfold playAnimation
  have hfo : ¬ (s.currentAction ≠ none ∧ s.currentAction ≠ some st) := by simp [hc]
  rw [if_neg (by simp [hl]), if_neg hfo]
  split_ifs with h1 h2
  · subst h1
    exact ⟨rfl, rfl, rfl, rfl, fun _ => ⟨rfl, rfl⟩,
      fun hco => absurd hco (by decide), fun hne _ => absurd rfl hne⟩
  · subst h2
    exact ⟨rfl, rfl, rfl, rfl, fun hco => absurd hco (by decide),
      fun _ => ⟨rfl, rfl, rfl⟩, fun _ hne => absurd rfl hne⟩
  · exact ⟨rfl, rfl, rfl, rfl, fun hco => absurd hco h1, fun hco => absurd hco h2,
      fun _ _ => ⟨rfl, rfl, rfl⟩⟩

/-- Witness for the amended C7 at the concrete mid-crouch state. -/
theorem c7_amended_play_same_state_witness :
    (playAnimation AnimState.standingtocrouched
        (run mQ clipsQ [] initSim evsToCrouch)).fadeOutCount =
      (run mQ clipsQ [] initSim evsToCrouch).fadeOutCount ∧
    (playAnimation AnimState.standingtocrouched
        (run mQ clipsQ [] initSim evsToCrouch)).currentAction =
      some AnimState.standingtocrouched ∧
    (playAnimation AnimState.standingtocrouched
        (run mQ clipsQ [] initSim evsToCrouch)).actionTime = 0 ∧
    (playAnimation AnimState.standingtocrouched
        (run mQ clipsQ [] initSim evsToCrouch)).fadeInCount =
      (run mQ clipsQ [] initSim evsToCrouch).fadeInCount + 1 ∧
    (AnimState.standingtocrouched = AnimState.standingtocrouched →
      (playAnimation AnimState.standingtocrouched
          (run mQ clipsQ [] initSim evsToCrouch)).isTransitioning = true ∧
      (playAnimation AnimState.standingtocrouched
          (run mQ clipsQ [] initSim evsToCrouch)).listeners =
        (run mQ clipsQ [] initSim evsToCrouch).listeners ++
          [(Handler.crouchH, (run mQ clipsQ [] initSim evsToCrouch).nextBindId)]) ∧
    (AnimState.standingtocrouched = AnimState.throwball →
      (playAnimation AnimState.standingtocrouched
          (run mQ clipsQ [] initSim evsToCrouch)).isTransitioning = true ∧
      (playAnimation AnimState.standingtocrouched
          (run mQ clipsQ [] initSim evsToCrouch)).isThrowingBall = true ∧
      (playAnimation AnimState.standingtocrouched
          (run mQ clipsQ [] initSim evsToCrouch)).listeners =
        (run mQ clipsQ [] initSim evsToCrouch).listeners ++
          [(Handler.throwH, (run mQ clipsQ [] initSim evsToCrouch).nextBindId)]) ∧
    (AnimState.standingtocrouched ≠ AnimState.standingtocrouched →
      AnimState.standingtocrouched ≠ AnimState.throwball →
      (playAnimation AnimState.standingtocrouched
          (run mQ clipsQ [] initSim evsToCrouch)).isTransitioning =
        (run mQ clipsQ [] initSim evsToCrouch).isTransitioning ∧
      (playAnimation AnimState.standingtocrouched
          (run mQ clipsQ [] initSim evsToCrouch)).isThrowingBall =
        (run mQ clipsQ [] initSim evsToCrouch).isThrowingBall ∧
      (playAnimation AnimState.standingtocrouched
          (run mQ clipsQ [] initSim evsToCrouch)).listeners =
        (run mQ clipsQ [] initSim evsToCrouch).listeners) :=
  c7_amended_play_same_state AnimState.standingtocrouched
    (run mQ clipsQ [] initSim evsToCrouch) (by decide) (by decide)
